import Mathlib

/-!
# Starline Salvage — verification of the game engine

Shallow embedding of `backend/main.py` (FastAPI game "Starline Salvage").
Pure Python functions become Lean functions; the in-place mutation of the
session object inside the `/api/act` handler becomes explicit state passing.
Every raise point of the handler is translated as returning the state as it
stood at the moment of the raise, so "no mutation before a raise" is a
provable property of the embedding, not something baked into it.

Python's `random.Random` (the Mersenne Twister MT19937, including CPython's
seeding and `_randbelow` rejection sampling) is ported word-for-word, so
every concrete draw below is the draw CPython makes; cross-check theorems
pin several draws to CPython's output.  Python `float` literals (0.15, 0.2,
0.55, 0.4) and the products `risk * 0.15` are modelled as exact rationals:
a uniform draw `rng.random()` is the exact rational `u / 2^53` for a 53-bit
numerator `u`, and each comparison of a draw against such a constant is made
through `rollLt`, the same comparison cross-multiplied into integer
arithmetic (`rollLt_iff` states the equivalence).  Python unbounded `int` is
modelled as `Int` (or `Nat` where the source value is a count that is never
negative).
-/

namespace Starline

set_option maxRecDepth 10000

/-!
Python's `random.Random` is the Mersenne Twister MT19937.  The model below
is a word-for-word port of CPython's `_randommodule.c`: `init_genrand`,
`init_by_array` (with the 19650218 / 1664525 / 1566083941 constants and the
in-place wrap-around at index 624), the tempered `genrand_uint32`, the block
twist, and `random_random`'s 53-bit draw `(a >> 5) * 2^26 + (b >> 6)` over
`2^53`.  The in-place C loops are realised as linear passes that carry the
previously written word, which reproduces the C read/write order exactly.
`_randbelow_with_getrandbits` (used by `randrange`, `randint`, `choice`) is
the same `getrandbits(bit_length)` rejection loop, with an explicit retry
budget of 64 on which the fallback value 0 is returned — unreachable for the
draw widths this program uses.  The cross-check theorems below pin several
draws to the exact values CPython produces.
-/

/-- The 32-bit word modulus. -/
def M32 : Nat := 4294967296

/-- Read word `i` of the generator state. -/
def mtLget (l : List Nat) (i : Nat) : Nat := l.getD i 0

/-- Strict binding: forces the word to a numeral before continuing, keeping
evaluation depth flat along the generator's long recurrence chains. -/
def forceNat : Nat → (Nat → α) → α
  | 0, k => k 0
  | Nat.succ n, k => k (Nat.succ n)

/-- `init_genrand`'s fill loop: `mt[i] = (1812433253 * (mt[i-1] ^
(mt[i-1] >> 30)) + i) & 0xffffffff` for `i = 1..623`. -/
def initGenrandAux : Nat → Nat → Nat → List Nat
  | 0, _, _ => []
  | Nat.succ n, prev, i =>
    forceNat ((1812433253 * (prev ^^^ (prev / 1073741824)) + i) % M32) fun v =>
      v :: initGenrandAux n v (i + 1)

/-- `init_genrand(s)`. -/
def initGenrand (s : Nat) : List Nat :=
  (s % M32) :: initGenrandAux 623 (s % M32) 1

/-- The first `init_by_array` loop over indices `1..623`: `mt[i] = ((mt[i] ^
((mt[i-1] ^ (mt[i-1] >> 30)) * 1664525)) + key[j] + j) & 0xffffffff`, with
`j` cycling through the key; returns the new words and the final `j`. -/
def ibaAux1 (key : List Nat) : List Nat → Nat → Nat → List Nat × Nat
  | [], _, j => ([], j)
  | o :: rest, prev, j =>
    let w := ((prev ^^^ (prev / 1073741824)) * 1664525) % M32
    forceNat (((o ^^^ w) + mtLget key j + j) % M32) fun v =>
      let j1 := if j + 1 ≥ key.length then 0 else j + 1
      let p := ibaAux1 key rest v j1
      (v :: p.1, p.2)

/-- The second `init_by_array` loop: `mt[i] = ((mt[i] ^ ((mt[i-1] ^
(mt[i-1] >> 30)) * 1566083941)) - i) & 0xffffffff`. -/
def ibaAux2 : List Nat → Nat → Nat → List Nat
  | [], _, _ => []
  | o :: rest, prev, i =>
    let w := ((prev ^^^ (prev / 1073741824)) * 1566083941) % M32
    forceNat (((o ^^^ w) + M32 - (i % M32)) % M32) fun v =>
      v :: ibaAux2 rest v (i + 1)

/-- `init_by_array(key)`: seed with 19650218, run the first loop for
`max(624, len(key))` = 624 iterations (keys here never exceed 624 words) —
623 steps over indices 1..623, the wrap `mt[0] = mt[623]; i = 1`, one more
step at index 1 — then the second loop for 623 iterations — 622 steps over
indices 2..623, the same wrap, one step at index 1 — and finally
`mt[0] = 0x80000000`. -/
def initByArray (key : List Nat) : List Nat :=
  let o := initGenrand 19650218
  let o0 := mtLget o 0
  let pA := ibaAux1 key o.tail o0 0
  let tailA := pA.1
  let jA := pA.2
  let m0 := mtLget tailA 622
  let old1 := mtLget tailA 0
  let w1 := ((m0 ^^^ (m0 / 1073741824)) * 1664525) % M32
  let m1 := ((old1 ^^^ w1) + mtLget key jA + jA) % M32
  let tailB := ibaAux2 tailA.tail m1 2
  let m0b := mtLget tailB 621
  let w2 := ((m0b ^^^ (m0b / 1073741824)) * 1566083941) % M32
  let m1b := ((m1 ^^^ w2) + M32 - 1) % M32
  2147483648 :: m1b :: tailB

/-- One window of the twist: `y = (mt[kk] & 0x80000000) | (mt[kk+1] &
0x7fffffff); v = feed ^ (y >> 1) ^ (y & 1 ? 0x9908b0df : 0)`, walking the
window list and the feed list (`mt[kk+397]` resp. already-twisted words) in
step. -/
def twistA : List Nat → List Nat → List Nat
  | o :: o1 :: rest, f :: frest =>
    let y := (o / 2147483648) * 2147483648 + o1 % 2147483648
    forceNat (f ^^^ (y / 2) ^^^ (if y % 2 = 1 then 2567483615 else 0)) fun v =>
      v :: twistA (o1 :: rest) frest
  | _, _ => []

/-- The MT19937 block twist, split at the same boundaries as the in-place C
loops: indices 0..226 feed from `mt[kk+397]` (old), 227..453 from new words
0..226, 454..623 from new words 227..396, and the final window pairs
`mt[623]` with the already-rewritten `mt[0]`. -/
def twist (mt : List Nat) : List Nat :=
  let nI := twistA mt (mt.drop 397)
  let nIIa := twistA (mt.drop 227) nI
  let n0 := mtLget nI 0
  let nIIb := twistA (mt.drop 454 ++ [n0]) nIIa
  nI ++ nIIa ++ nIIb

/-- Model of Python's `random.Random`: the MT19937 state (624 words) and the
next-word index. -/
structure PyRandom where
  mt : List Nat
  mti : Nat
deriving DecidableEq, Repr

/-- `genrand_uint32`: twist when the block is exhausted, then temper. -/
def PyRandom.genrand (r : PyRandom) : Nat × PyRandom :=
  let st := if r.mti ≥ 624 then twist r.mt else r.mt
  let idx := if r.mti ≥ 624 then 0 else r.mti
  let y0 := mtLget st idx
  let y1 := y0 ^^^ (y0 / 2048)
  let y2 := y1 ^^^ ((y1 * 128) &&& 2636928640)
  let y3 := y2 ^^^ ((y2 * 32768) &&& 4022730752)
  let y4 := y3 ^^^ (y3 / 262144)
  (y4, ⟨st, idx + 1⟩)

/-- The little-endian 32-bit words of the seed (CPython `random_seed`); at
most 64 words, enough for every integer this program forms. -/
def seedKeyAux : Nat → Nat → List Nat
  | 0, _ => []
  | Nat.succ f, n => if n = 0 then [] else n % M32 :: seedKeyAux f (n / M32)

/-- The key `random_seed` builds from an integer: its absolute value split
into 32-bit words, `[0]` for zero. -/
def seedKey (n : Nat) : List Nat :=
  if n = 0 then [0] else seedKeyAux 64 n

/-- `random.Random(seed)`: build a generator from an integer seed exactly as
CPython does — `init_by_array` over the 32-bit words of `abs(seed)`. -/
def mkRandom (seed : Int) : PyRandom :=
  ⟨initByArray (seedKey seed.natAbs), 624⟩

/-- `rng.random()`: the exact value is `u / 2^53` where
`u = (genrand() >> 5) * 2^26 + (genrand() >> 6)` (CPython `random_random`);
the numerator `u` is returned, and every comparison of a draw against a
float constant is made exactly through `rollLt`. -/
def PyRandom.random (r : PyRandom) : Nat × PyRandom :=
  let pa := r.genrand
  let pb := pa.2.genrand
  ((pa.1 / 32) * 67108864 + pb.1 / 64, pb.2)

/-- The exact truth value of `rng.random() < num / den` for a draw with
numerator `u`: the comparison `u / 2^53 < num / den` cross-multiplied into
integer arithmetic (see `rollLt_iff`).  For the constants this program
compares against (0.15, 0.2, 0.55, 0.4 and `risk * 0.15`), the comparison
against the exact rational and against its IEEE-754 double rounding agree on
every 53-bit draw, since no multiple of `2^-53` separates them. -/
def rollLt (u : Nat) (num den : Int) : Prop :=
  den * (u : Int) < num * 9007199254740992

instance (u : Nat) (num den : Int) : Decidable (rollLt u num den) :=
  inferInstanceAs (Decidable (den * (u : Int) < num * 9007199254740992))

/-- `n.bit_length()` for the word-sized values passed to `_randbelow`. -/
def bitLenAux : Nat → Nat → Nat
  | 0, _ => 0
  | Nat.succ f, n => if n = 0 then 0 else bitLenAux f (n / 2) + 1

/-- `n.bit_length()`. -/
def pyBitLength (n : Nat) : Nat := bitLenAux 64 n

/-- `getrandbits(k)` for `0 < k ≤ 32`: the top `k` bits of one word. -/
def getrandbits (r : PyRandom) (k : Nat) : Nat × PyRandom :=
  let p := r.genrand
  (p.1 / 2 ^ (32 - k), p.2)

/-- The rejection loop of `_randbelow_with_getrandbits`, with an explicit
retry budget; on exhaustion (unreachable for this program's draw widths) the
in-range value 0 is returned. -/
def randbelowAux (n k : Nat) : Nat → PyRandom → Nat × PyRandom
  | 0, r => (0, r)
  | Nat.succ f, r =>
    let p := getrandbits r k
    if p.1 < n then (p.1, p.2) else randbelowAux n k f p.2

/-- `Random._randbelow(n)`: `getrandbits(n.bit_length())` until `< n`. -/
def PyRandom.randbelow (r : PyRandom) (n : Nat) : Nat × PyRandom :=
  randbelowAux n (pyBitLength n) 64 r

/-- `rng.randrange(n)` = `_randbelow(n)`. -/
def PyRandom.randrange (r : PyRandom) (n : Nat) : Nat × PyRandom :=
  r.randbelow n

/-- `rng.randint(a, b)` = `a + _randbelow(b - a + 1)`. -/
def PyRandom.randint (r : PyRandom) (a b : Int) : Int × PyRandom :=
  let p := r.randbelow (b - a + 1).toNat
  (a + (p.1 : Int), p.2)

/-- `rng.choice(xs)` = `xs[_randbelow(len(xs))]` (default `d` if empty). -/
def PyRandom.choice (r : PyRandom) (xs : List String) (d : String) : String × PyRandom :=
  let p := r.randbelow xs.length
  (xs.getD p.1 d, p.2)

/-- `MAP_SIZE = 5` (`backend/main.py`, line 20). -/
def MAP_SIZE : Nat := 5

/-- `GOAL_CREDITS = 120` (line 21). -/
def GOAL_CREDITS : Int := 120

/-- `MAX_FUEL = 12` (line 22). -/
def MAX_FUEL : Int := 12

/-- `MAX_HULL = 10` (line 23). -/
def MAX_HULL : Int := 10

/-- `class Anomaly(TypedDict)` (lines 34-41). -/
structure Anomaly where
  id : String
  name : String
  x : Int
  y : Int
  value : Int
  risk : Int
  collected : Bool
deriving DecidableEq, Repr

/-- `class Station(TypedDict)` (lines 44-48). -/
structure Station where
  id : String
  name : String
  x : Int
  y : Int
deriving DecidableEq, Repr

/-- `class PendingEvent(TypedDict)` (lines 51-53). -/
structure PendingEvent where
  type : String
  threat : Int
deriving DecidableEq, Repr

/-- `class GameState(BaseModel)` (lines 56-69). -/
structure GameState where
  id : String
  seed : Nat
  turn : Nat
  x : Int
  y : Int
  fuel : Int
  hull : Int
  credits : Int
  status : String
  log : List String
  anomalies : List Anomaly
  stations : List Station
  pending_event : Option PendingEvent
deriving DecidableEq, Repr

/-- `class ActionRequest(BaseModel)` (lines 26-31). -/
structure ActionRequest where
  game_id : String
  action : String
  direction : Option String
  target_id : Option String
  item : Option String
deriving DecidableEq, Repr

/-- The name table of `generate_anomalies` (lines 78-89). -/
def anomalyNames : List String :=
  ["Derelict Skiff", "Glitter Cache", "Drift Beacon", "Ice Vault",
   "Hollow Freighter", "Cracked Probe", "Solar Wreck", "Echo Relay",
   "Quiet Tomb", "Shard Garden"]

/-- Loop body of `generate_anomalies` (lines 90-107): each iteration draws
name, x, y, value, risk from the seeded stream and takes a fresh id from the
external UUID source (`uuid.uuid4().hex`, modelled as `uuidGen`, the `idx`-th
call of which yields `uuidGen idx`). -/
def genAnomaliesAux (uuidGen : Nat → String) : Nat → Nat → PyRandom → List Anomaly
  | 0, _, _ => []
  | Nat.succ n, idx, rng =>
    let pName := rng.choice anomalyNames ""
    let pX := pName.2.randrange MAP_SIZE
    let pY := pX.2.randrange MAP_SIZE
    let pV := pY.2.randint 10 40
    let pR := pV.2.randint 1 4
    { id := uuidGen idx, name := pName.1, x := (pX.1 : Int), y := (pY.1 : Int),
      value := pV.1, risk := pR.1, collected := false }
      :: genAnomaliesAux uuidGen n (idx + 1) pR.2

/-- `generate_anomalies(seed)` (lines 75-108).  The `uuid.uuid4()` calls do
not read the seeded stream; they are modelled by the explicit `uuidGen`
parameter. -/
def generate_anomalies (seed : Nat) (uuidGen : Nat → String) : List Anomaly :=
  genAnomaliesAux uuidGen 10 0 (mkRandom (seed : Int))

/-- The name table of `generate_stations` (lines 113-119). -/
def stationNames : List String :=
  ["Cinder Tradepost", "Nova Exchange", "Kepler Bazaar", "Drydock 19", "Marrow Port"]

/-- Loop of `generate_stations` (lines 121-135): rejection sampling until 3
stations are placed.  The Python `while` loop has no a-priori bound, so the
embedding carries an explicit iteration budget and returns `none` when the
budget runs out (the Python program would still be looping at that point). -/
def genStationsAux (uuidGen : Nat → String) :
    Nat → PyRandom → Nat → List Station → Option (List Station)
  | 0, _, _, _ => none
  | Nat.succ fuelLeft, rng, idx, acc =>
    if acc.length ≥ 3 then some acc
    else
      let pX := rng.randrange MAP_SIZE
      let pY := pX.2.randrange MAP_SIZE
      let x : Int := pX.1
      let y : Int := pY.1
      if x = 0 ∧ y = 0 then genStationsAux uuidGen fuelLeft pY.2 idx acc
      else if acc.any (fun s => s.x == x && s.y == y) then
        genStationsAux uuidGen fuelLeft pY.2 idx acc
      else
        let pN := pY.2.choice stationNames ""
        genStationsAux uuidGen fuelLeft pN.2 (idx + 1)
          (acc ++ [{ id := uuidGen idx, name := pN.1, x := x, y := y }])

/-- `generate_stations(seed)` (lines 111-136): rng seeded with `seed + 4242`. -/
def generate_stations (seed : Nat) (uuidGen : Nat → String) (fuelBound : Nat) :
    Option (List Station) :=
  genStationsAux uuidGen fuelBound (mkRandom ((seed : Int) + 4242)) 0 []

/-- One entry of `station_offers()` (lines 139-151). -/
structure Offer where
  id : String
  label : String
  price : Int
deriving DecidableEq, Repr

/-- `station_offers()` (lines 139-151). -/
def station_offers : List Offer :=
  [{ id := "fuel_cell", label := "Fuel Cells (+2 fuel)", price := 4 },
   { id := "hull_patch", label := "Hull Patch (+1 hull)", price := 6 }]

/-- `current_station(state)` (lines 154-158): first station co-located with
the ship. -/
def current_station (s : GameState) : Option Station :=
  s.stations.find? (fun st => st.x == s.x && st.y == s.y)

/-- One entry of the `nearby` list built by the scan action (lines 244-248). -/
structure NearbyInfo where
  id : String
  name : String
  value : Int
  risk : Int
deriving DecidableEq, Repr

/-- The station sub-object of `public_state` (lines 178-184). -/
structure StationView where
  id : String
  name : String
  offers : List Offer
deriving DecidableEq, Repr

/-- The dictionary returned by `public_state` (lines 161-186). -/
structure PublicView where
  id : String
  turn : Nat
  x : Int
  y : Int
  fuel : Int
  hull : Int
  credits : Int
  status : String
  log : List String
  mapSize : Nat
  goalCredits : Int
  nearby : List NearbyInfo
  station : Option StationView
  pendingEvent : Option PendingEvent
deriving DecidableEq, Repr

/-- `state.log[-8:]` (line 174): the last 8 entries. -/
def lastEight (l : List String) : List String :=
  l.drop (l.length - 8)

/-- `public_state(state, nearby)` (lines 161-186).  A `None` nearby argument
and an empty list both project to `[]` (`nearby or []`), so the embedding
takes the list directly. -/
def public_state (s : GameState) (nearby : List NearbyInfo) : PublicView :=
  { id := s.id, turn := s.turn, x := s.x, y := s.y, fuel := s.fuel,
    hull := s.hull, credits := s.credits, status := s.status,
    log := lastEight s.log, mapSize := MAP_SIZE, goalCredits := GOAL_CREDITS,
    nearby := nearby,
    station := (current_station s).map
      (fun st => { id := st.id, name := st.name, offers := station_offers }),
    pendingEvent := s.pending_event }

/-- `update_status(state)` (lines 189-195). -/
def update_status (s : GameState) : GameState :=
  if s.hull ≤ 0 then { s with status := "lost" }
  else if s.credits ≥ GOAL_CREDITS ∧ s.x = 0 ∧ s.y = 0 then { s with status := "won" }
  else { s with status := "active" }

/-- `new_game()` (lines 203-224).  The time-derived seed and the `uuid4`
session id are external inputs, modelled as parameters; station generation
carries the explicit iteration budget. -/
def new_game (seed : Nat) (gid : String) (uuidA uuidS : Nat → String)
    (fuelBound : Nat) : Option GameState :=
  (generate_stations seed uuidS fuelBound).map fun sts =>
    { id := gid, seed := seed, turn := 1, x := 0, y := 0,
      fuel := MAX_FUEL, hull := MAX_HULL, credits := 20, status := "active",
      log := ["Docked at Base. Systems green."],
      anomalies := generate_anomalies seed uuidA,
      stations := sts, pending_event := none }

/-- Errors raised by the `act` handler: `HTTPException(status_code, detail)`
raises, plus the `ValueError` that `int(target_id[:8], 16)` would raise on a
non-hex target id (FastAPI converts the latter to an internal server error). -/
inductive Err where
  | http (code : Nat) (detail : String)
  | internal (msg : String)
deriving DecidableEq, Repr

/-- Outcome of one action branch of the handler body (lines 243-391): either
the mutated state plus the scan `nearby` list, or the state as it stood at
the raise point together with the raised error. -/
inductive StepResult where
  | ok (s : GameState) (nearby : List NearbyInfo)
  | err (s : GameState) (e : Err)
deriving DecidableEq, Repr

/-- A lower-case ASCII letter for an upper-case one, other characters
unchanged: the effect of Python's `str.lower()` on the ASCII strings the
handler compares against. -/
def lowerChar (c : Char) : Char :=
  if 65 ≤ c.toNat ∧ c.toNat ≤ 90 then Char.ofNat (c.toNat + 32) else c

/-- `s.lower()` as used on `request.action` (line 236) and
`request.direction` (line 256). -/
def pyLower (s : String) : String :=
  String.mk (s.data.map lowerChar)

/-- The value of one hexadecimal digit character, `none` otherwise. -/
def hexDigitVal (c : Char) : Option Nat :=
  if 48 ≤ c.toNat ∧ c.toNat ≤ 57 then some (c.toNat - 48)
  else if 97 ≤ c.toNat ∧ c.toNat ≤ 102 then some (c.toNat - 87)
  else if 65 ≤ c.toNat ∧ c.toNat ≤ 70 then some (c.toNat - 55)
  else none

/-- Accumulating base-16 evaluation of a digit list. -/
def hexValAux : List Char → Nat → Option Nat
  | [], acc => some acc
  | c :: rest, acc =>
    match hexDigitVal c with
    | none => none
    | some d => hexValAux rest (acc * 16 + d)

/-- `int(s, 16)` (line 298) for a plain string of hex digits: `none` models
the `ValueError` raised on an empty or non-hex string (sign, whitespace and
underscore forms never occur in this program's ids). -/
def pyIntHex (s : String) : Option Nat :=
  if s.data.isEmpty then none else hexValAux s.data 0

/-- `target_id[:8]` (line 298): the first 8 characters of the id. -/
def pyTake (s : String) (n : Nat) : String :=
  String.mk (s.data.take n)

/-- The direction table of the travel branch (lines 257-267). -/
def dirDelta (direction : String) : Option (Int × Int) :=
  if direction = "n" then some (0, -1)
  else if direction = "s" then some (0, 1)
  else if direction = "w" then some (-1, 0)
  else if direction = "e" then some (1, 0)
  else none

/-- The scan log line `f"Scan pinged {len(nearby)} salvage signatures."`. -/
def scanMsg (n : Nat) : String :=
  s!"Scan pinged {n} salvage signatures."

/-- The salvage log line `f"Recovered {name} worth {value} credits."`. -/
def recoveredMsg (a : Anomaly) : String :=
  let nm := a.name
  let v := a.value
  s!"Recovered {nm} worth {v} credits."

/-- The fight log line `f"Fought off pirates and looted {reward} credits."`. -/
def lootedMsg (reward : Int) : String :=
  s!"Fought off pirates and looted {reward} credits."

/-- The scan branch (lines 243-252). -/
def scanStep (s : GameState) : StepResult :=
  let nearby := (s.anomalies.filter
      (fun a => !a.collected && a.x == s.x && a.y == s.y)).map
      (fun a => { id := a.id, name := a.name, value := a.value, risk := a.risk : NearbyInfo })
  if nearby.isEmpty then
    .ok { s with log := s.log ++ ["Scan found nothing but cold dust."] } nearby
  else
    .ok { s with log := s.log ++ [scanMsg nearby.length] } nearby

/-- The travel branch (lines 253-287). -/
def travelStep (s : GameState) (dirOpt : Option String) (rng : PyRandom) : StepResult :=
  if s.fuel ≤ 0 then .err s (Err.http 400 "Out of fuel")
  else
    let direction := pyLower (dirOpt.getD "")
    match dirDelta direction with
    | none => .err s (Err.http 400 "Invalid direction")
    | some dxy =>
      let newX := s.x + dxy.1
      let newY := s.y + dxy.2
      if newX < 0 ∨ newX ≥ (MAP_SIZE : Int) ∨ newY < 0 ∨ newY ≥ (MAP_SIZE : Int) then
        .err s (Err.http 400 "Out of bounds")
      else
        let p1 := rng.random
        let hull1 := if rollLt p1.1 3 20 then s.hull - 1 else s.hull
        let log1 :=
          if rollLt p1.1 3 20 then s.log ++ ["Micrometeor swarm scraped the hull."]
          else s.log ++ ["Transit clean. Engines humming."]
        let p2 := p1.2.random
        if rollLt p2.1 1 5 then
          let pT := p2.2.randint 1 3
          .ok { s with x := newX, y := newY, fuel := s.fuel - 1, hull := hull1,
                       pending_event := some { type := "pirate_ambush", threat := pT.1 },
                       log := log1 ++ ["Pirate ambush! They demand cargo or a fight."] } []
        else
          .ok { s with x := newX, y := newY, fuel := s.fuel - 1, hull := hull1,
                       log := log1 } []

/-- `anomaly["collected"] = True` (line 304): the `next(...)` lookup found the
first anomaly with the given id, and only that one object is mutated. -/
def markCollected : List Anomaly → String → List Anomaly
  | [], _ => []
  | a :: rest, tid =>
    if a.id == tid then { a with collected := true } :: rest
    else a :: markCollected rest tid

/-- The salvage branch (lines 288-307). -/
def salvageStep (s : GameState) (targetOpt : Option String) : StepResult :=
  let tid := targetOpt.getD ""
  if tid = "" then .err s (Err.http 400 "Missing target_id")
  else
    match s.anomalies.find? (fun a => a.id == tid) with
    | none => .err s (Err.http 400 "Invalid salvage target")
    | some a =>
      if a.collected then .err s (Err.http 400 "Invalid salvage target")
      else if a.x ≠ s.x ∨ a.y ≠ s.y then .err s (Err.http 400 "Target not in sector")
      else
        match pyIntHex (pyTake tid 8) with
        | none => .err s (Err.internal "int() argument is not valid hex")
        | some k =>
          let roll := (mkRandom ((s.seed : Int) + (k : Int))).random.1
          let hull1 := if rollLt roll (a.risk * 3) 20 then s.hull - 1 else s.hull
          let log1 :=
            if rollLt roll (a.risk * 3) 20 then
              s.log ++ ["Salvage snap-back dented the hull."]
            else s.log
          .ok { s with hull := hull1,
                       credits := s.credits + a.value,
                       anomalies := markCollected s.anomalies tid,
                       log := log1 ++ [recoveredMsg a] } []

/-- The trade branch (lines 308-332). -/
def tradeStep (s : GameState) (itemOpt : Option String) : StepResult :=
  match current_station s with
  | none => .err s (Err.http 400 "No trade station here")
  | some _ =>
    if itemOpt = some "fuel_cell" then
      if s.credits < 4 then .err s (Err.http 400 "Not enough credits")
      else if s.fuel ≥ MAX_FUEL then .err s (Err.http 400 "Fuel already full")
      else
        .ok { s with credits := s.credits - 4,
                     fuel := min MAX_FUEL (s.fuel + 2),
                     log := s.log ++ ["Traded for fuel cells."] } []
    else if itemOpt = some "hull_patch" then
      if s.credits < 6 then .err s (Err.http 400 "Not enough credits")
      else if s.hull ≥ MAX_HULL then .err s (Err.http 400 "Hull already full")
      else
        .ok { s with credits := s.credits - 6,
                     hull := min MAX_HULL (s.hull + 1),
                     log := s.log ++ ["Installed a fresh hull patch."] } []
    else .err s (Err.http 400 "Invalid trade item")

/-- The refuel branch (lines 333-342). -/
def refuelStep (s : GameState) : StepResult :=
  if s.x ≠ 0 ∨ s.y ≠ 0 then .err s (Err.http 400 "Refuel only at base")
  else if s.credits < 5 then .err s (Err.http 400 "Not enough credits")
  else if s.fuel ≥ MAX_FUEL then .err s (Err.http 400 "Fuel already full")
  else
    .ok { s with credits := s.credits - 5,
                 fuel := min MAX_FUEL (s.fuel + 3),
                 log := s.log ++ ["Docking bay topped off fuel reserves."] } []

/-- The repair branch (lines 343-352). -/
def repairStep (s : GameState) : StepResult :=
  if s.x ≠ 0 ∨ s.y ≠ 0 then .err s (Err.http 400 "Repair only at base")
  else if s.credits < 8 then .err s (Err.http 400 "Not enough credits")
  else if s.hull ≥ MAX_HULL then .err s (Err.http 400 "Hull already full")
  else
    .ok { s with credits := s.credits - 8,
                 hull := min MAX_HULL (s.hull + 2),
                 log := s.log ++ ["Mechanics sealed the hull fractures."] } []

/-- The fight branch (lines 353-367). -/
def fightStep (s : GameState) (rng : PyRandom) : StepResult :=
  match s.pending_event with
  | none => .err s (Err.http 400 "No active threat")
  | some ev =>
    let threat := ev.threat
    let p := rng.random
    if rollLt p.1 11 20 then
      let reward := threat * 6
      .ok { s with credits := s.credits + reward,
                   log := s.log ++ [lootedMsg reward],
                   pending_event := none } []
    else
      let loss := min s.credits (threat * 4)
      .ok { s with hull := s.hull - threat,
                   credits := s.credits - loss,
                   log := s.log ++ ["Pirates scored hits before breaking off."],
                   pending_event := none } []

/-- The bribe branch (lines 368-377). -/
def bribeStep (s : GameState) : StepResult :=
  match s.pending_event with
  | none => .err s (Err.http 400 "No active threat")
  | some ev =>
    let cost := ev.threat * 8
    if s.credits < cost then .err s (Err.http 400 "Not enough credits")
    else
      .ok { s with credits := s.credits - cost,
                   pending_event := none,
                   log := s.log ++ ["Paid off the pirates. They drift away."] } []

/-- The evade branch (lines 378-389). -/
def evadeStep (s : GameState) (rng : PyRandom) : StepResult :=
  match s.pending_event with
  | none => .err s (Err.http 400 "No active threat")
  | some _ =>
    if s.fuel ≤ 0 then .err s (Err.http 400 "Out of fuel")
    else
      let p := rng.random
      if rollLt p.1 2 5 then
        .ok { s with fuel := s.fuel - 1, hull := s.hull - 1,
                     log := s.log ++ ["Evasion failed. Took a glancing hit."],
                     pending_event := none } []
      else
        .ok { s with fuel := s.fuel - 1,
                     log := s.log ++ ["Evasion successful. Pirates lost the trail."],
                     pending_event := none } []

/-- The `if action == ...` dispatch chain (lines 243-391). -/
def resolveAction (s : GameState) (action : String)
    (dir tid item : Option String) (rng : PyRandom) : StepResult :=
  if action = "scan" then scanStep s
  else if action = "travel" then travelStep s dir rng
  else if action = "salvage" then salvageStep s tid
  else if action = "trade" then tradeStep s item
  else if action = "refuel" then refuelStep s
  else if action = "repair" then repairStep s
  else if action = "fight" then fightStep s rng
  else if action = "bribe" then bribeStep s
  else if action = "evade" then evadeStep s rng
  else .err s (Err.http 400 "Unknown action")

/-- Lines 393-395: `state.turn += 1`, `update_status(state)`, then
`public_state(state, nearby=nearby)`. -/
def finalize (s : GameState) (nearby : List NearbyInfo) :
    GameState × Except Err PublicView :=
  let s1 := update_status { s with turn := s.turn + 1 }
  (s1, Except.ok (public_state s1 nearby))

/-- The per-action rng seed `state.seed + state.turn * 31 + state.x * 13 +
state.y * 7` (line 237), computed from the position the ship occupies when
the request arrives. -/
def actSalt (s : GameState) : Int :=
  (s.seed : Int) + (s.turn : Int) * 31 + s.x * 13 + s.y * 7

/-- The `act` handler body for an existing session (lines 233-395): the
404 lookup of lines 229-231 is the session store's concern and the session is
passed directly.  The returned state is the session object as the handler
leaves it, paired with the response (or the raised error). -/
def act (s : GameState) (req : ActionRequest) : GameState × Except Err PublicView :=
  if s.status ≠ "active" then (s, Except.ok (public_state s []))
  else
    let action := pyLower req.action
    let rng := mkRandom (actSalt s)
    if s.pending_event.isSome ∧ ¬(action = "fight" ∨ action = "bribe" ∨ action = "evade") then
      (s, Except.error (Err.http 400 "Resolve the ambush first"))
    else
      match resolveAction s action req.direction req.target_id req.item rng with
      | StepResult.ok s2 nearby => finalize s2 nearby
      | StepResult.err s2 e => (s2, Except.error e)

/-! ## Concrete sessions and requests used as examples -/

/-- `True` exactly for a response the handler returns without raising. -/
def isSuccess : Except Err PublicView → Bool
  | Except.ok _ => true
  | Except.error _ => false

/-- A placeholder view, used only as the `Option.getD` default when naming a
concrete successful response. -/
def emptyView : PublicView :=
  { id := "", turn := 0, x := 0, y := 0, fuel := 0, hull := 0, credits := 0,
    status := "", log := [], mapSize := 0, goalCredits := 0, nearby := [],
    station := none, pendingEvent := none }

/-- The view inside a successful `act` outcome. -/
def viewOf (r : GameState × Except Err PublicView) : PublicView :=
  r.2.toOption.getD emptyView

/-- A freshly created session (seed 1) sitting at base. -/
def sBase : GameState :=
  { id := "g1", seed := 1, turn := 1, x := 0, y := 0, fuel := 12, hull := 10,
    credits := 20, status := "active", log := ["Docked at Base. Systems green."],
    anomalies := [], stations := [], pending_event := none }

def reqScan : ActionRequest :=
  { game_id := "g1", action := "scan", direction := none, target_id := none, item := none }

def reqRefuel : ActionRequest :=
  { game_id := "g1", action := "refuel", direction := none, target_id := none, item := none }

/-- An active mid-game session at (2,2) whose next travel rolls the stream
of `random.Random(7 + 1*31 + 2*13 + 2*7) = random.Random(78)`, whose first
two draws in CPython are 0.8144781454478104 (no hazard) and
0.09602294340888373 (ambush): a clean transit followed by a pirate ambush. -/
def sTravel : GameState :=
  { id := "g2", seed := 7, turn := 1, x := 2, y := 2, fuel := 12, hull := 10,
    credits := 20, status := "active", log := [],
    anomalies := [], stations := [], pending_event := none }

def reqEast : ActionRequest :=
  { game_id := "g2", action := "travel", direction := some "e", target_id := none, item := none }

/-- An active session blocked by a pending pirate ambush. -/
def sAmbush : GameState :=
  { id := "g3", seed := 1, turn := 3, x := 1, y := 2, fuel := 5, hull := 8,
    credits := 30, status := "active", log := [],
    anomalies := [], stations := [],
    pending_event := some { type := "pirate_ambush", threat := 2 } }

def reqBribe : ActionRequest :=
  { game_id := "g3", action := "bribe", direction := none, target_id := none, item := none }

/-- A won session. -/
def sWon : GameState :=
  { id := "g4", seed := 7, turn := 9, x := 0, y := 0, fuel := 3, hull := 5,
    credits := 150, status := "won", log := ["a", "b"],
    anomalies := [], stations := [], pending_event := none }


/-- An uncollected anomaly with hexadecimal id `"ab"` at tile (2,1). -/
def anomAB : Anomaly :=
  { id := "ab", name := "Ice Vault", x := 2, y := 1, value := 25, risk := 1,
    collected := false }

/-- An active session co-located with `anomAB`; the salvage roll for id
`"ab"` comes from `random.Random(5 + 0xab) = random.Random(176)`, whose
first CPython draw is 0.0297... < 0.15, so this salvage dents the hull. -/
def sSalv : GameState :=
  { id := "g5", seed := 5, turn := 4, x := 2, y := 1, fuel := 6, hull := 10,
    credits := 30, status := "active", log := [], anomalies := [anomAB],
    stations := [], pending_event := none }

def reqSalvage : ActionRequest :=
  { game_id := "g5", action := "salvage", direction := none,
    target_id := some "ab", item := none }

/-- An uncollected anomaly at base whose value pushes the session to a win. -/
def anomWin : Anomaly :=
  { id := "ab", name := "Glitter Cache", x := 0, y := 0, value := 25, risk := 1,
    collected := false }

/-- An active session at base one salvage away from the win condition. -/
def sWinSalv : GameState :=
  { id := "g6", seed := 0, turn := 2, x := 0, y := 0, fuel := 6, hull := 10,
    credits := 100, status := "active", log := [], anomalies := [anomWin],
    stations := [], pending_event := none }

def reqSalvWin : ActionRequest :=
  { game_id := "g6", action := "salvage", direction := none,
    target_id := some "ab", item := none }

/-- A mid-map session for the travel-roll claim (`random.Random(71)` draws
0.3237... and 0.6200... in CPython: clean transit, no ambush). -/
def sMid : GameState :=
  { id := "g7", seed := 0, turn := 1, x := 2, y := 2, fuel := 12, hull := 10,
    credits := 20, status := "active", log := [], anomalies := [],
    stations := [], pending_event := none }

def reqNorth : ActionRequest :=
  { game_id := "g7", action := "travel", direction := some "n",
    target_id := none, item := none }


/-- Every generated field of an anomaly except the id (which comes from the
external UUID source, not from the seed). -/
def anomalyCore (a : Anomaly) : String × Int × Int × Int × Int × Bool :=
  (a.name, a.x, a.y, a.value, a.risk, a.collected)

/-- Every generated field of a station except the id. -/
def stationCore (st : Station) : String × Int × Int :=
  (st.name, st.x, st.y)

/-- The per-station well-formedness stated by the generator contract:
in-bounds on both axes and distinct from the base tile. -/
def stationOk (st : Station) : Prop :=
  0 ≤ st.x ∧ st.x < (MAP_SIZE : Int) ∧ 0 ≤ st.y ∧ st.y < (MAP_SIZE : Int) ∧
  ¬(st.x = 0 ∧ st.y = 0)

/-- A fixed UUID source for concrete runs. -/
def uuidSrc : Nat → String := fun _ => "s"

/-- A concrete completed station list for seed 1. -/
def sampleStations : List Station := (generate_stations 1 uuidSrc 1000).getD []

/-- Session states reachable by the engine: a fresh `new_game` followed by
any sequence of handler calls (each call keeps the state it returns,
whether the request succeeded or raised). -/
inductive Reachable : GameState → Prop
  | init (seed : Nat) (gid : String) (uuidA uuidS : Nat → String) (fuelBound : Nat)
      (s : GameState) : new_game seed gid uuidA uuidS fuelBound = some s → Reachable s
  | step (s : GameState) (req : ActionRequest) : Reachable s → Reachable (act s req).1

/-- The session created by `new_game` at seed 1. -/
def g0 : GameState := (new_game 1 "g0" uuidSrc uuidSrc 1000).getD sBase

def scanView : PublicView := viewOf (act sBase reqScan)

def bribeView : PublicView := viewOf (act sAmbush reqBribe)

/-! ## Helper lemmas about `update_status` and `finalize` -/

/-- `rollLt` is exactly the rational comparison `u / 2^53 < num / den`. -/
theorem rollLt_iff (u : Nat) (num den : Int) (hden : 0 < den) :
    rollLt u num den ↔ (u : ℚ) / 9007199254740992 < (num : ℚ) / (den : ℚ) := by
  unfold rollLt
  rw [div_lt_div_iff₀ (by norm_num) (by exact_mod_cast hden)]
  constructor
  · intro h
    have h2 : ((den * (u : Int) : Int) : ℚ) < ((num * 9007199254740992 : Int) : ℚ) := by
      exact_mod_cast h
    push_cast at h2
    linarith
  · intro h
    have h2 : ((den * (u : Int) : Int) : ℚ) < ((num * 9007199254740992 : Int) : ℚ) := by
      push_cast
      linarith
    exact_mod_cast h2


theorem update_status_turn (s : GameState) : (update_status s).turn = s.turn := by
  unfold update_status; split_ifs <;> rfl

theorem update_status_x (s : GameState) : (update_status s).x = s.x := by
  unfold update_status; split_ifs <;> rfl

theorem update_status_y (s : GameState) : (update_status s).y = s.y := by
  unfold update_status; split_ifs <;> rfl

theorem update_status_fuel (s : GameState) : (update_status s).fuel = s.fuel := by
  unfold update_status; split_ifs <;> rfl

theorem update_status_hull (s : GameState) : (update_status s).hull = s.hull := by
  unfold update_status; split_ifs <;> rfl

theorem update_status_credits (s : GameState) : (update_status s).credits = s.credits := by
  unfold update_status; split_ifs <;> rfl

theorem update_status_log (s : GameState) : (update_status s).log = s.log := by
  unfold update_status; split_ifs <;> rfl

theorem update_status_anomalies (s : GameState) : (update_status s).anomalies = s.anomalies := by
  unfold update_status; split_ifs <;> rfl

theorem update_status_pending (s : GameState) :
    (update_status s).pending_event = s.pending_event := by
  unfold update_status; split_ifs <;> rfl

/-- The status recomputation of lines 189-195, characterised: `lost` exactly
when the hull is depleted; `won` exactly when solvent at base with the hull
intact; `active` otherwise. -/
theorem update_status_char (s : GameState) :
    ((update_status s).status = "lost" ↔ s.hull ≤ 0) ∧
    (0 < s.hull →
      ((update_status s).status = "won" ↔ s.credits ≥ GOAL_CREDITS ∧ s.x = 0 ∧ s.y = 0)) ∧
    (0 < s.hull → ¬(s.credits ≥ GOAL_CREDITS ∧ s.x = 0 ∧ s.y = 0) →
      (update_status s).status = "active") := by
  unfold update_status
  split_ifs with h1 h2
  · exact ⟨⟨fun _ => h1, fun _ => rfl⟩,
      fun hh => absurd h1 (not_le.mpr hh),
      fun hh _ => absurd h1 (not_le.mpr hh)⟩
  · refine ⟨⟨fun hw => absurd (show ("won" : String) = "lost" from hw) (by decide),
        fun hl => absurd hl h1⟩, fun _ => ⟨fun _ => h2, fun _ => rfl⟩,
        fun _ hn => absurd h2 hn⟩
  · refine ⟨⟨fun hw => absurd (show ("active" : String) = "lost" from hw) (by decide),
        fun hl => absurd hl h1⟩,
        fun _ => ⟨fun hw => absurd (show ("active" : String) = "won" from hw) (by decide),
          fun hc => absurd hc h2⟩,
        fun _ _ => rfl⟩

/-! ## Error paths return the state exactly as it was at the raise point -/

theorem scanStep_no_err {s t : GameState} {e : Err} (h : scanStep s = .err t e) : False := by
  simp only [scanStep] at h
  split at h <;> cases h

theorem travelStep_err_state {s : GameState} {d : Option String} {rng : PyRandom}
    {t : GameState} {e : Err} (h : travelStep s d rng = .err t e) : t = s := by
  simp only [travelStep] at h
  split at h
  · injection h with h1 h2; exact h1.symm
  · split at h
    · injection h with h1 h2; exact h1.symm
    · split at h
      · injection h with h1 h2; exact h1.symm
      · split at h <;> cases h

theorem salvageStep_err_state {s : GameState} {tid : Option String}
    {t : GameState} {e : Err} (h : salvageStep s tid = .err t e) : t = s := by
  unfold salvageStep at h
  dsimp only at h
  split at h
  · injection h with h1 h2; exact h1.symm
  · split at h
    · injection h with h1 h2; exact h1.symm
    · split at h
      · injection h with h1 h2; exact h1.symm
      · split at h
        · injection h with h1 h2; exact h1.symm
        · split at h
          · injection h with h1 h2; exact h1.symm
          · cases h

theorem tradeStep_err_state {s : GameState} {it : Option String}
    {t : GameState} {e : Err} (h : tradeStep s it = .err t e) : t = s := by
  simp only [tradeStep] at h
  split at h
  · injection h with h1 h2; exact h1.symm
  · split at h
    · split at h
      · injection h with h1 h2; exact h1.symm
      · split at h
        · injection h with h1 h2; exact h1.symm
        · cases h
    · split at h
      · split at h
        · injection h with h1 h2; exact h1.symm
        · split at h
          · injection h with h1 h2; exact h1.symm
          · cases h
      · injection h with h1 h2; exact h1.symm

theorem refuelStep_err_state {s t : GameState} {e : Err}
    (h : refuelStep s = .err t e) : t = s := by
  simp only [refuelStep] at h
  split at h
  · injection h with h1 h2; exact h1.symm
  · split at h
    · injection h with h1 h2; exact h1.symm
    · split at h
      · injection h with h1 h2; exact h1.symm
      · cases h

theorem repairStep_err_state {s t : GameState} {e : Err}
    (h : repairStep s = .err t e) : t = s := by
  simp only [repairStep] at h
  split at h
  · injection h with h1 h2; exact h1.symm
  · split at h
    · injection h with h1 h2; exact h1.symm
    · split at h
      · injection h with h1 h2; exact h1.symm
      · cases h

theorem fightStep_err_state {s : GameState} {rng : PyRandom} {t : GameState} {e : Err}
    (h : fightStep s rng = .err t e) : t = s := by
  simp only [fightStep] at h
  split at h
  · injection h with h1 h2; exact h1.symm
  · split at h <;> cases h

theorem bribeStep_err_state {s t : GameState} {e : Err}
    (h : bribeStep s = .err t e) : t = s := by
  simp only [bribeStep] at h
  split at h
  · injection h with h1 h2; exact h1.symm
  · split at h
    · injection h with h1 h2; exact h1.symm
    · cases h

theorem evadeStep_err_state {s : GameState} {rng : PyRandom} {t : GameState} {e : Err}
    (h : evadeStep s rng = .err t e) : t = s := by
  simp only [evadeStep] at h
  split at h
  · injection h with h1 h2; exact h1.symm
  · split at h
    · injection h with h1 h2; exact h1.symm
    · split at h <;> cases h

/-- Whatever the action, a raise happens before any mutation: the state
carried by an error outcome is the input state. -/
theorem resolveAction_err_state {s : GameState} {a : String} {d tid it : Option String}
    {rng : PyRandom} {t : GameState} {e : Err}
    (h : resolveAction s a d tid it rng = .err t e) : t = s := by
  simp only [resolveAction] at h
  split_ifs at h
  · exact (scanStep_no_err h).elim
  · exact travelStep_err_state h
  · exact salvageStep_err_state h
  · exact tradeStep_err_state h
  · exact refuelStep_err_state h
  · exact repairStep_err_state h
  · exact fightStep_err_state h
  · exact bribeStep_err_state h
  · exact evadeStep_err_state h
  · injection h with h1 h2; exact h1.symm

/-! ## Dispatch equations for the action chain -/

theorem resolveAction_scan (s : GameState) (d tid it : Option String) (rng : PyRandom) :
    resolveAction s "scan" d tid it rng = scanStep s := rfl

theorem resolveAction_travel (s : GameState) (d tid it : Option String) (rng : PyRandom) :
    resolveAction s "travel" d tid it rng = travelStep s d rng := rfl

theorem resolveAction_salvage (s : GameState) (d tid it : Option String) (rng : PyRandom) :
    resolveAction s "salvage" d tid it rng = salvageStep s tid := rfl

theorem resolveAction_trade (s : GameState) (d tid it : Option String) (rng : PyRandom) :
    resolveAction s "trade" d tid it rng = tradeStep s it := rfl

theorem resolveAction_refuel (s : GameState) (d tid it : Option String) (rng : PyRandom) :
    resolveAction s "refuel" d tid it rng = refuelStep s := rfl

theorem resolveAction_repair (s : GameState) (d tid it : Option String) (rng : PyRandom) :
    resolveAction s "repair" d tid it rng = repairStep s := rfl

theorem resolveAction_fight (s : GameState) (d tid it : Option String) (rng : PyRandom) :
    resolveAction s "fight" d tid it rng = fightStep s rng := rfl

theorem resolveAction_bribe (s : GameState) (d tid it : Option String) (rng : PyRandom) :
    resolveAction s "bribe" d tid it rng = bribeStep s := rfl

theorem resolveAction_evade (s : GameState) (d tid it : Option String) (rng : PyRandom) :
    resolveAction s "evade" d tid it rng = evadeStep s rng := rfl

/-! ## Effects of each successfully resolved branch -/

theorem scanStep_ok {s s2 : GameState} {nb : List NearbyInfo}
    (h : scanStep s = .ok s2 nb) :
    s2.turn = s.turn ∧ s2.fuel = s.fuel ∧ s2.pending_event = s.pending_event ∧
    s2.log.length = s.log.length + 1 := by
  unfold scanStep at h
  dsimp only at h
  split at h <;>
  · injection h with h1 h2
    subst h1
    exact ⟨rfl, rfl, rfl, by simp⟩

theorem travelStep_ok {s : GameState} {d : Option String} {rng : PyRandom}
    {s2 : GameState} {nb : List NearbyInfo} (h : travelStep s d rng = .ok s2 nb) :
    s2.turn = s.turn ∧ ¬ s.fuel ≤ 0 ∧ s2.fuel = s.fuel - 1 ∧ s2.credits = s.credits ∧
    (s2.log.length = s.log.length + 1 ∨ s2.log.length = s.log.length + 2) := by
  unfold travelStep at h
  dsimp only at h
  split at h
  · cases h
  · rename_i hfuel
    split at h
    · cases h
    · split at h
      · cases h
      · split at h <;>
        · injection h with h1 h2
          subst h1
          refine ⟨rfl, hfuel, rfl, rfl, ?_⟩
          split <;> simp

theorem salvageStep_ok {s : GameState} {tid : Option String}
    {s2 : GameState} {nb : List NearbyInfo} (h : salvageStep s tid = .ok s2 nb) :
    s2.turn = s.turn ∧ s2.fuel = s.fuel ∧ s2.pending_event = s.pending_event ∧
    (s2.log.length = s.log.length + 1 ∨ s2.log.length = s.log.length + 2) := by
  unfold salvageStep at h
  dsimp only at h
  split at h
  · cases h
  · split at h
    · cases h
    · split at h
      · cases h
      · split at h
        · cases h
        · split at h
          · cases h
          · injection h with h1 h2
            subst h1
            refine ⟨rfl, rfl, rfl, ?_⟩
            split <;> simp

theorem tradeStep_ok {s : GameState} {it : Option String}
    {s2 : GameState} {nb : List NearbyInfo} (h : tradeStep s it = .ok s2 nb) :
    s2.turn = s.turn ∧ s2.pending_event = s.pending_event ∧
    s2.log.length = s.log.length + 1 ∧
    (s2.fuel = s.fuel ∨ (¬ s.fuel ≥ MAX_FUEL ∧ s2.fuel = min MAX_FUEL (s.fuel + 2))) := by
  unfold tradeStep at h
  split at h
  · cases h
  · split at h
    · split at h
      · cases h
      · split at h
        · cases h
        · rename_i hfuel
          injection h with h1 h2
          subst h1
          exact ⟨rfl, rfl, by simp, Or.inr ⟨hfuel, rfl⟩⟩
    · split at h
      · split at h
        · cases h
        · split at h
          · cases h
          · injection h with h1 h2
            subst h1
            exact ⟨rfl, rfl, by simp, Or.inl rfl⟩
      · cases h

theorem refuelStep_ok {s s2 : GameState} {nb : List NearbyInfo}
    (h : refuelStep s = .ok s2 nb) :
    s2.turn = s.turn ∧ s2.pending_event = s.pending_event ∧
    s2.log.length = s.log.length + 1 ∧
    ¬ s.fuel ≥ MAX_FUEL ∧ s2.fuel = min MAX_FUEL (s.fuel + 3) := by
  unfold refuelStep at h
  split at h
  · cases h
  · split at h
    · cases h
    · split at h
      · cases h
      · rename_i hfuel
        injection h with h1 h2
        subst h1
        exact ⟨rfl, rfl, by simp, hfuel, rfl⟩

theorem repairStep_ok {s s2 : GameState} {nb : List NearbyInfo}
    (h : repairStep s = .ok s2 nb) :
    s2.turn = s.turn ∧ s2.pending_event = s.pending_event ∧
    s2.log.length = s.log.length + 1 ∧ s2.fuel = s.fuel := by
  unfold repairStep at h
  split at h
  · cases h
  · split at h
    · cases h
    · split at h
      · cases h
      · injection h with h1 h2
        subst h1
        exact ⟨rfl, rfl, by simp, rfl⟩

theorem fightStep_ok {s : GameState} {rng : PyRandom}
    {s2 : GameState} {nb : List NearbyInfo} (h : fightStep s rng = .ok s2 nb) :
    s2.turn = s.turn ∧ s2.fuel = s.fuel ∧ s2.pending_event = none ∧
    s2.log.length = s.log.length + 1 := by
  unfold fightStep at h
  dsimp only at h
  split at h
  · cases h
  · split at h <;>
    · injection h with h1 h2
      subst h1
      exact ⟨rfl, rfl, rfl, by simp⟩

theorem bribeStep_ok {s s2 : GameState} {nb : List NearbyInfo}
    (h : bribeStep s = .ok s2 nb) :
    s2.turn = s.turn ∧ s2.fuel = s.fuel ∧ s2.pending_event = none ∧
    s2.log.length = s.log.length + 1 := by
  unfold bribeStep at h
  dsimp only at h
  split at h
  · cases h
  · split at h
    · cases h
    · injection h with h1 h2
      subst h1
      exact ⟨rfl, rfl, rfl, by simp⟩

theorem evadeStep_ok {s : GameState} {rng : PyRandom}
    {s2 : GameState} {nb : List NearbyInfo} (h : evadeStep s rng = .ok s2 nb) :
    s2.turn = s.turn ∧ ¬ s.fuel ≤ 0 ∧ s2.fuel = s.fuel - 1 ∧ s2.pending_event = none ∧
    s2.log.length = s.log.length + 1 := by
  unfold evadeStep at h
  dsimp only at h
  split at h
  · cases h
  · split at h
    · cases h
    · rename_i hfuel
      split at h <;>
      · injection h with h1 h2
        subst h1
        exact ⟨rfl, hfuel, rfl, rfl, by simp⟩

/-- Common shape of every successfully resolved action: the branch itself
never touches the turn counter, appends one or two log entries, and keeps
the fuel level inside `[0, MAX_FUEL]`. -/
theorem resolveAction_ok_shape {s : GameState} {a : String} {d tid it : Option String}
    {rng : PyRandom} {s2 : GameState} {nb : List NearbyInfo}
    (h : resolveAction s a d tid it rng = .ok s2 nb) :
    s2.turn = s.turn ∧
    (s2.log.length = s.log.length + 1 ∨ s2.log.length = s.log.length + 2) ∧
    (0 ≤ s.fuel ∧ s.fuel ≤ MAX_FUEL → 0 ≤ s2.fuel ∧ s2.fuel ≤ MAX_FUEL) := by
  unfold resolveAction at h
  split_ifs at h
  · obtain ⟨h1, h2, _, h4⟩ := scanStep_ok h
    exact ⟨h1, Or.inl h4, by rw [h2]; exact id⟩
  · obtain ⟨h1, h2, h3, _, h5⟩ := travelStep_ok h
    refine ⟨h1, h5, ?_⟩
    rw [h3]; intro hb; omega
  · obtain ⟨h1, h2, _, h4⟩ := salvageStep_ok h
    exact ⟨h1, h4, by rw [h2]; exact id⟩
  · obtain ⟨h1, _, h3, h4⟩ := tradeStep_ok h
    refine ⟨h1, Or.inl h3, ?_⟩
    rcases h4 with h4 | ⟨h4a, h4b⟩
    · rw [h4]; exact id
    · rw [h4b]; intro hb
      simp only [MAX_FUEL] at *
      omega
  · obtain ⟨h1, _, h3, h4a, h4b⟩ := refuelStep_ok h
    refine ⟨h1, Or.inl h3, ?_⟩
    rw [h4b]; intro hb
    simp only [MAX_FUEL] at *
    omega
  · obtain ⟨h1, _, h3, h4⟩ := repairStep_ok h
    exact ⟨h1, Or.inl h3, by rw [h4]; exact id⟩
  · obtain ⟨h1, h2, _, h4⟩ := fightStep_ok h
    exact ⟨h1, Or.inl h4, by rw [h2]; exact id⟩
  · obtain ⟨h1, h2, _, h4⟩ := bribeStep_ok h
    exact ⟨h1, Or.inl h4, by rw [h2]; exact id⟩
  · obtain ⟨h1, h2, h3, _, h5⟩ := evadeStep_ok h
    refine ⟨h1, Or.inl h5, ?_⟩
    rw [h3]; intro hb; omega

/-! ## Shape of the handler's control flow -/

/-- Exhaustive case analysis of the `act` handler: terminal no-op, blocked by
a pending event, resolved action, or rejected action. -/
theorem act_cases (s : GameState) (req : ActionRequest) :
    (¬ s.status = "active" ∧ act s req = (s, Except.ok (public_state s []))) ∨
    (s.status = "active" ∧ s.pending_event.isSome ∧
      ¬(pyLower req.action = "fight" ∨ pyLower req.action = "bribe" ∨
        pyLower req.action = "evade") ∧
      act s req = (s, Except.error (Err.http 400 "Resolve the ambush first"))) ∨
    (s.status = "active" ∧ ∃ s2 nb,
      resolveAction s (pyLower req.action) req.direction req.target_id req.item
        (mkRandom (actSalt s)) = StepResult.ok s2 nb ∧
      act s req = finalize s2 nb) ∨
    (s.status = "active" ∧ ∃ s2 e,
      resolveAction s (pyLower req.action) req.direction req.target_id req.item
        (mkRandom (actSalt s)) = StepResult.err s2 e ∧
      act s req = (s2, Except.error e)) := by
  by_cases hs : s.status = "active"
  · by_cases hg : s.pending_event.isSome ∧
        ¬(pyLower req.action = "fight" ∨ pyLower req.action = "bribe" ∨
          pyLower req.action = "evade")
    · right; left
      exact ⟨hs, hg.1, hg.2, by simp only [act, if_neg (not_not_intro hs), if_pos hg]⟩
    · cases hr : resolveAction s (pyLower req.action) req.direction req.target_id req.item
          (mkRandom (actSalt s)) with
      | ok s2 nb =>
        right; right; left
        refine ⟨hs, s2, nb, rfl, ?_⟩
        simp only [act, if_neg (not_not_intro hs), if_neg hg]
        rw [hr]
      | err s2 e =>
        right; right; right
        refine ⟨hs, s2, e, rfl, ?_⟩
        simp only [act, if_neg (not_not_intro hs), if_neg hg]
        rw [hr]
  · exact Or.inl ⟨hs, by simp only [act, if_pos hs]⟩

/-- A non-active session is returned untouched with its current projection. -/
theorem act_terminal {s : GameState} (req : ActionRequest) (hs : ¬ s.status = "active") :
    act s req = (s, Except.ok (public_state s [])) := by
  simp only [act, if_pos hs]

/-- Whenever the handler raises, the state it leaves behind is the input
state: no mutation precedes any raise. -/
theorem act_err_state {s : GameState} {req : ActionRequest} {e : Err}
    (h : (act s req).2 = Except.error e) : (act s req).1 = s := by
  rcases act_cases s req with ⟨_, ha⟩ | ⟨_, _, _, ha⟩ | ⟨_, s2, nb, _, ha⟩ | ⟨_, s2, e2, hr, ha⟩
  · rw [ha] at h; exact absurd h (by simp)
  · rw [ha]
  · rw [ha] at h; exact absurd h (by simp [finalize])
  · rw [ha]; exact resolveAction_err_state hr

/-! ## Lower-casing is idempotent -/

theorem toNat_ofNat_valid {n : Nat} (h : n.isValidChar) : (Char.ofNat n).toNat = n := by
  rw [Char.ofNat, dif_pos h]
  rfl

theorem lowerChar_idem (c : Char) : lowerChar (lowerChar c) = lowerChar c := by
  unfold lowerChar
  split_ifs with h1 h2
  · exfalso
    rw [toNat_ofNat_valid (Or.inl (by omega))] at h2
    omega
  · rfl
  · rfl

theorem pyLower_idem (s : String) : pyLower (pyLower s) = pyLower s := by
  simp [pyLower, List.map_map, Function.comp_def, lowerChar_idem]

theorem pyLower_map_getD (d : Option String) :
    pyLower ((d.map pyLower).getD "") = pyLower (d.getD "") := by
  cases d with
  | none => rfl
  | some x => simp [pyLower_idem]

theorem travelStep_dir_lower (s : GameState) (d : Option String) (rng : PyRandom) :
    travelStep s (d.map pyLower) rng = travelStep s d rng := by
  unfold travelStep
  rw [pyLower_map_getD]

theorem resolveAction_dir_lower (s : GameState) (a : String) (d tid it : Option String)
    (rng : PyRandom) :
    resolveAction s a (d.map pyLower) tid it rng = resolveAction s a d tid it rng := by
  unfold resolveAction
  split_ifs <;> first | rfl | exact travelStep_dir_lower s d rng

/-! ## Unfolding the handler on specific branches -/

/-- The handler on an active, unblocked session whose branch resolves. -/
theorem act_of_resolve_ok {s : GameState} {req : ActionRequest}
    {s2 : GameState} {nb : List NearbyInfo} (hs : s.status = "active")
    (hgate : ¬(s.pending_event.isSome = true ∧
      ¬(pyLower req.action = "fight" ∨ pyLower req.action = "bribe" ∨
        pyLower req.action = "evade")))
    (hr : resolveAction s (pyLower req.action) req.direction req.target_id req.item
      (mkRandom (actSalt s)) = StepResult.ok s2 nb) :
    act s req = finalize s2 nb := by
  simp only [act, if_neg (not_not_intro hs)]
  rw [if_neg hgate, hr]

/-- The handler on an active, unblocked session whose branch raises. -/
theorem act_of_resolve_err {s : GameState} {req : ActionRequest}
    {t : GameState} {e : Err} (hs : s.status = "active")
    (hgate : ¬(s.pending_event.isSome = true ∧
      ¬(pyLower req.action = "fight" ∨ pyLower req.action = "bribe" ∨
        pyLower req.action = "evade")))
    (hr : resolveAction s (pyLower req.action) req.direction req.target_id req.item
      (mkRandom (actSalt s)) = StepResult.err t e) :
    act s req = (t, Except.error e) := by
  simp only [act, if_neg (not_not_intro hs)]
  rw [if_neg hgate, hr]

/-- A session with no pending event never trips the ambush gate. -/
theorem gate_of_no_pending {s : GameState} {req : ActionRequest}
    (hp : s.pending_event = none) :
    ¬(s.pending_event.isSome = true ∧
      ¬(pyLower req.action = "fight" ∨ pyLower req.action = "bribe" ∨
        pyLower req.action = "evade")) := by
  rw [hp]
  simp

/-- A request for one of the three resolution actions never trips the gate. -/
theorem gate_of_resolution {s : GameState} {req : ActionRequest}
    (ha : pyLower req.action = "fight" ∨ pyLower req.action = "bribe" ∨
      pyLower req.action = "evade") :
    ¬(s.pending_event.isSome = true ∧
      ¬(pyLower req.action = "fight" ∨ pyLower req.action = "bribe" ∨
        pyLower req.action = "evade")) :=
  fun hg => hg.2 ha

/-! ## Branch equations used by the salvage and travel claims -/

/-- What a successful salvage computes (lines 288-307), as an equation. -/
theorem salvageStep_spec (s : GameState) (tid : String) (a : Anomaly) (k : Nat)
    (htid : ¬ tid = "")
    (hfind : s.anomalies.find? (fun b => b.id == tid) = some a)
    (hcol : a.collected = false) (hx : a.x = s.x) (hy : a.y = s.y)
    (hk : pyIntHex (pyTake tid 8) = some k) :
    salvageStep s (some tid) = .ok
      { s with
        hull := if rollLt ((mkRandom ((s.seed : Int) + (k : Int))).random.1) (a.risk * 3) 20
                then s.hull - 1 else s.hull,
        credits := s.credits + a.value,
        anomalies := markCollected s.anomalies tid,
        log := (if rollLt ((mkRandom ((s.seed : Int) + (k : Int))).random.1) (a.risk * 3) 20
                then s.log ++ ["Salvage snap-back dented the hull."] else s.log)
               ++ [recoveredMsg a] } [] := by
  unfold salvageStep
  dsimp only
  simp only [Option.getD_some]
  rw [if_neg htid, hfind]
  dsimp only
  rw [if_neg (by rw [hcol]; exact Bool.false_ne_true),
      if_neg (by rw [hx, hy]; simp), hk]

/-- What a successful travel computes when the ambush roll misses. -/
theorem travelStep_spec_clean (s : GameState) (dirOpt : Option String)
    (rng : PyRandom) (dx dy : Int)
    (hfuel : ¬ s.fuel ≤ 0)
    (hd : dirDelta (pyLower (dirOpt.getD "")) = some (dx, dy))
    (hb : ¬(s.x + dx < 0 ∨ s.x + dx ≥ (MAP_SIZE : Int) ∨
            s.y + dy < 0 ∨ s.y + dy ≥ (MAP_SIZE : Int)))
    (hamb : ¬ rollLt ((rng.random.2).random.1) 1 5) :
    travelStep s dirOpt rng = .ok
      { s with x := s.x + dx, y := s.y + dy, fuel := s.fuel - 1,
               hull := if rollLt (rng.random.1) 3 20 then s.hull - 1 else s.hull,
               log := if rollLt (rng.random.1) 3 20
                      then s.log ++ ["Micrometeor swarm scraped the hull."]
                      else s.log ++ ["Transit clean. Engines humming."] } [] := by
  unfold travelStep
  dsimp only
  rw [if_neg hfuel, hd]
  dsimp only
  rw [if_neg hb, if_neg hamb]

/-- What a successful travel computes when the ambush roll hits. -/
theorem travelStep_spec_ambush (s : GameState) (dirOpt : Option String)
    (rng : PyRandom) (dx dy : Int)
    (hfuel : ¬ s.fuel ≤ 0)
    (hd : dirDelta (pyLower (dirOpt.getD "")) = some (dx, dy))
    (hb : ¬(s.x + dx < 0 ∨ s.x + dx ≥ (MAP_SIZE : Int) ∨
            s.y + dy < 0 ∨ s.y + dy ≥ (MAP_SIZE : Int)))
    (hamb : rollLt ((rng.random.2).random.1) 1 5) :
    travelStep s dirOpt rng = .ok
      { s with x := s.x + dx, y := s.y + dy, fuel := s.fuel - 1,
               hull := if rollLt (rng.random.1) 3 20 then s.hull - 1 else s.hull,
               pending_event := some
                 { type := "pirate_ambush",
                   threat := (((rng.random.2).random.2).randint 1 3).1 },
               log := (if rollLt (rng.random.1) 3 20
                       then s.log ++ ["Micrometeor swarm scraped the hull."]
                       else s.log ++ ["Transit clean. Engines humming."])
                      ++ ["Pirate ambush! They demand cargo or a fight."] } [] := by
  unfold travelStep
  dsimp only
  rw [if_neg hfuel, hd]
  dsimp only
  rw [if_neg hb, if_pos hamb]

/-- Marking the found anomaly collected is what the later lookup sees. -/
theorem find?_markCollected (l : List Anomaly) (tid : String) (a : Anomaly)
    (hf : l.find? (fun b => b.id == tid) = some a) :
    (markCollected l tid).find? (fun b => b.id == tid) =
      some { a with collected := true } := by
  induction l with
  | nil => cases hf
  | cons b rest ih =>
    by_cases hb : (b.id == tid) = true
    · unfold markCollected
      rw [if_pos hb]
      have hfb : List.find? (fun c => c.id == tid) (b :: rest) = some b := by
        simp [List.find?, hb]
      rw [show (fun (b : Anomaly) => b.id == tid) = (fun c => c.id == tid) from rfl, hfb] at hf
      injection hf with hba
      subst hba
      simp [List.find?, hb]
    · unfold markCollected
      rw [if_neg hb]
      have hfb : List.find? (fun c => c.id == tid) (b :: rest) =
          List.find? (fun c => c.id == tid) rest := by
        simp [List.find?, hb]
      rw [show (fun (b : Anomaly) => b.id == tid) = (fun c => c.id == tid) from rfl, hfb] at hf
      have h2 := ih hf
      simp only [List.find?, hb]
      exact h2

/-! ## Projections of `finalize` -/

theorem finalize_credits (t : GameState) (nb : List NearbyInfo) :
    (finalize t nb).1.credits = t.credits := by
  show (update_status { t with turn := t.turn + 1 }).credits = t.credits
  rw [update_status_credits]

theorem finalize_hull (t : GameState) (nb : List NearbyInfo) :
    (finalize t nb).1.hull = t.hull := by
  show (update_status { t with turn := t.turn + 1 }).hull = t.hull
  rw [update_status_hull]

theorem finalize_fuel (t : GameState) (nb : List NearbyInfo) :
    (finalize t nb).1.fuel = t.fuel := by
  show (update_status { t with turn := t.turn + 1 }).fuel = t.fuel
  rw [update_status_fuel]

theorem finalize_log (t : GameState) (nb : List NearbyInfo) :
    (finalize t nb).1.log = t.log := by
  show (update_status { t with turn := t.turn + 1 }).log = t.log
  rw [update_status_log]

theorem finalize_anomalies (t : GameState) (nb : List NearbyInfo) :
    (finalize t nb).1.anomalies = t.anomalies := by
  show (update_status { t with turn := t.turn + 1 }).anomalies = t.anomalies
  rw [update_status_anomalies]

theorem finalize_pending (t : GameState) (nb : List NearbyInfo) :
    (finalize t nb).1.pending_event = t.pending_event := by
  show (update_status { t with turn := t.turn + 1 }).pending_event = t.pending_event
  rw [update_status_pending]

/-! ## World generation lemmas -/

/-- The anomaly generator reads the UUID source only for the id field. -/
theorem genAnomaliesAux_core (u1 u2 : Nat → String) :
    ∀ (n i1 i2 : Nat) (rng : PyRandom),
      (genAnomaliesAux u1 n i1 rng).map anomalyCore =
      (genAnomaliesAux u2 n i2 rng).map anomalyCore := by
  intro n
  induction n with
  | zero => intro i1 i2 rng; rfl
  | succ n ih =>
    intro i1 i2 rng
    unfold genAnomaliesAux
    dsimp only
    simp only [List.map_cons]
    rw [ih (i1 + 1) (i2 + 1)]
    rfl

/-- Collision checks only look at positions, which `stationCore` preserves. -/
theorem any_eq_of_core (x y : Int) :
    ∀ (l1 l2 : List Station), l1.map stationCore = l2.map stationCore →
      (l1.any fun st => st.x == x && st.y == y) =
      (l2.any fun st => st.x == x && st.y == y)
  | [], [], _ => rfl
  | [], _ :: _, h => by simp at h
  | _ :: _, [], h => by simp at h
  | a :: t1, b :: t2, h => by
    simp only [List.map_cons, List.cons.injEq] at h
    obtain ⟨hcore, ht⟩ := h
    have hx : a.x = b.x := congrArg (fun p => p.2.1) hcore
    have hy : a.y = b.y := congrArg (fun p => p.2.2) hcore
    simp only [List.any_cons, hx, hy, any_eq_of_core x y t1 t2 ht]

/-- The station generator reads the UUID source only for the id fields. -/
theorem genStationsAux_core (u1 u2 : Nat → String) :
    ∀ (fb : Nat) (rng : PyRandom) (i1 i2 : Nat) (acc1 acc2 : List Station),
      acc1.map stationCore = acc2.map stationCore →
      (genStationsAux u1 fb rng i1 acc1).map (List.map stationCore) =
      (genStationsAux u2 fb rng i2 acc2).map (List.map stationCore) := by
  intro fb
  induction fb with
  | zero => intros; rfl
  | succ fb ih =>
    intro rng i1 i2 acc1 acc2 hacc
    have hlen : acc1.length = acc2.length := by
      simpa using congrArg List.length hacc
    unfold genStationsAux
    dsimp only
    rw [hlen, any_eq_of_core _ _ acc1 acc2 hacc]
    by_cases h3 : acc2.length ≥ 3
    · rw [if_pos h3, if_pos h3]
      simp [hacc]
    · rw [if_neg h3, if_neg h3]
      split_ifs with hxy hany
      · exact ih _ _ _ _ _ hacc
      · exact ih _ _ _ _ _ hacc
      · refine ih _ _ _ _ _ ?_
        simp [hacc, stationCore]

/-- Cross-check against CPython: `random.Random(42).random()` returns
0.6394267984578837, that is `5759444582531269 / 2^53`. -/
theorem mkRandom_cpython_42 : (mkRandom 42).random.1 = 5759444582531269 := by
  decide

/-- Cross-check against CPython: the first two draws of `random.Random(78)`
are 0.8144781454478104 and 0.09602294340888373, that is
`7336166944680343 / 2^53` and `864897784310534 / 2^53`. -/
theorem mkRandom_cpython_78 :
    (mkRandom 78).random.1 = 7336166944680343 ∧
    ((mkRandom 78).random.2).random.1 = 864897784310534 :=
  ⟨by decide, by decide⟩

/-- Cross-check against CPython: drawing `choice` over a 10-element list,
`randrange(5)` twice, `randint(10, 40)` and `randint(1, 4)` from
`random.Random(1)` — the first anomaly row — gives
(`"Drift Beacon"`, 4, 0, 18, 1). -/
theorem mkRandom_cpython_row :
    (genAnomaliesAux (fun _ => "u") 1 0 (mkRandom 1)).map anomalyCore =
      [("Drift Beacon", 4, 0, 18, 1, false)] := by
  decide

/-- The rejection loop only accepts draws below the bound (the fuel-out
fallback 0 is also below it). -/
theorem randbelowAux_lt (n k : Nat) (hn : 0 < n) :
    ∀ (f : Nat) (r : PyRandom), (randbelowAux n k f r).1 < n := by
  intro f
  induction f with
  | zero => intro r; exact hn
  | succ f ih =>
    intro r
    unfold randbelowAux
    dsimp only
    split
    · rename_i h
      exact h
    · exact ih _

/-- `randrange` stays below its bound. -/
theorem randrange_lt (r : PyRandom) (n : Nat) (hn : 0 < n) : (r.randrange n).1 < n :=
  randbelowAux_lt n (pyBitLength n) hn 64 r

/-- Loop invariant of the station generator: whenever the loop completes, it
returns exactly 3 stations, all in bounds, none at base, all at pairwise
distinct positions. -/
theorem genStationsAux_spec (u : Nat → String) :
    ∀ (fb : Nat) (rng : PyRandom) (idx : Nat) (acc l : List Station),
      genStationsAux u fb rng idx acc = some l →
      acc.length ≤ 3 →
      (∀ st ∈ acc, stationOk st) →
      acc.Pairwise (fun a b => ¬(a.x = b.x ∧ a.y = b.y)) →
      l.length = 3 ∧ (∀ st ∈ l, stationOk st) ∧
      l.Pairwise (fun a b => ¬(a.x = b.x ∧ a.y = b.y)) := by
  intro fb
  induction fb with
  | zero => intro rng idx acc l h; cases h
  | succ fb ih =>
    intro rng idx acc l h hlen hok hpw
    unfold genStationsAux at h
    dsimp only at h
    split at h
    · rename_i h3
      injection h with hl
      subst hl
      exact ⟨le_antisymm hlen h3, hok, hpw⟩
    · rename_i h3
      split at h
      · exact ih _ _ _ _ h hlen hok hpw
      · split at h
        · exact ih _ _ _ _ h hlen hok hpw
        · rename_i hxy hany
          refine ih _ _ _ _ h ?_ ?_ ?_
          · simp only [List.length_append, List.length_cons, List.length_nil]
            omega
          · intro st hst
            rcases List.mem_append.mp hst with hst | hst
            · exact hok st hst
            · rw [List.mem_singleton.mp hst]
              refine ⟨Int.natCast_nonneg _, ?_, Int.natCast_nonneg _, ?_, hxy⟩
              · exact Int.ofNat_lt.mpr (randrange_lt _ MAP_SIZE (by decide))
              · exact Int.ofNat_lt.mpr (randrange_lt _ MAP_SIZE (by decide))
          · rw [List.pairwise_append]
            refine ⟨hpw, List.pairwise_singleton _ _, ?_⟩
            intro a ha b hb
            rw [List.mem_singleton.mp hb]
            intro hcol
            apply hany
            rw [List.any_eq_true]
            refine ⟨a, ha, ?_⟩
            simp only [Bool.and_eq_true, beq_iff_eq]
            exact hcol

/-! ## The fuel invariant over reachable states -/

/-- Fuel stays within `[0, MAX_FUEL]` in every reachable session state. -/
theorem reachable_fuel (s : GameState) (h : Reachable s) :
    0 ≤ s.fuel ∧ s.fuel ≤ MAX_FUEL := by
  induction h with
  | init seed gid uA uS fb s hnew =>
    unfold new_game at hnew
    rcases Option.map_eq_some'.mp hnew with ⟨sts, _, hf⟩
    rw [← hf]
    constructor
    · show (0 : Int) ≤ MAX_FUEL
      decide
    · show (MAX_FUEL : Int) ≤ MAX_FUEL
      decide
  | step s req hs ih =>
    rcases act_cases s req with ⟨_, ha⟩ | ⟨_, _, _, ha⟩ | ⟨_, s2, nb, hr, ha⟩ | ⟨_, s2, e, hr, ha⟩
    · rw [ha]; exact ih
    · rw [ha]; exact ih
    · rw [ha, finalize_fuel]
      exact (resolveAction_ok_shape hr).2.2 ih
    · rw [ha, resolveAction_err_state hr]
      exact ih

/-! ## Claim theorems -/

/-- C1 (amended): for every action request on an active session, the handler
is atomic — it either fully applies the action's effects, appending one or
two log entries and advancing the turn counter by exactly 1, or it fails and
leaves every field of the session unchanged. -/
theorem act_atomic (s : GameState) (req : ActionRequest) (hs : s.status = "active") :
    (∀ e, (act s req).2 = Except.error e → (act s req).1 = s) ∧
    (∀ v, (act s req).2 = Except.ok v →
      (act s req).1.turn = s.turn + 1 ∧
      ((act s req).1.log.length = s.log.length + 1 ∨
       (act s req).1.log.length = s.log.length + 2)) := by
  refine ⟨fun e he => act_err_state he, fun v hv => ?_⟩
  rcases act_cases s req with ⟨hna, _⟩ | ⟨_, _, _, ha⟩ | ⟨_, s2, nb, hr, ha⟩ | ⟨_, s2, e, hr, ha⟩
  · exact absurd hs hna
  · rw [ha] at hv; exact absurd hv (by simp)
  · obtain ⟨ht, hl, _⟩ := resolveAction_ok_shape hr
    rw [ha]
    have h1 : (finalize s2 nb).1 = update_status { s2 with turn := s2.turn + 1 } := rfl
    rw [h1]
    constructor
    · rw [update_status_turn]
      show s2.turn + 1 = s.turn + 1
      rw [ht]
    · rw [update_status_log]
      show s2.log.length = s.log.length + 1 ∨ s2.log.length = s.log.length + 2
      exact hl
  · rw [ha] at hv; exact absurd hv (by simp)

/-- C1 counterexample: on `sTravel` the travel east succeeds and appends two
log entries (clean transit plus pirate ambush — the CPython draws of
`random.Random(78)` documented at `sTravel`), not exactly one. -/
theorem act_two_log_entries :
    sTravel.status = "active" ∧
    isSuccess (act sTravel reqEast).2 = true ∧
    (act sTravel reqEast).1.log.length = sTravel.log.length + 2 := by
  refine ⟨rfl, ?_, ?_⟩ <;> decide

/-- C1 witness. -/
theorem act_atomic_witness :
    sBase.status = "active" ∧
    (act sBase reqScan).2 = Except.ok scanView ∧
    (act sBase reqScan).1.turn = sBase.turn + 1 ∧
    ((act sBase reqScan).1.log.length = sBase.log.length + 1 ∨
     (act sBase reqScan).1.log.length = sBase.log.length + 2) :=
  ⟨rfl, rfl,
   ((act_atomic sBase reqScan rfl).2 scanView rfl).1,
   ((act_atomic sBase reqScan rfl).2 scanView rfl).2⟩

/-- C2: on a session whose status is `won` or `lost`, any action request is a
pure no-op: the state is unchanged and the current projection is returned,
with no error. -/
theorem act_terminal_noop (s : GameState) (req : ActionRequest)
    (h : s.status = "won" ∨ s.status = "lost") :
    act s req = (s, Except.ok (public_state s [])) := by
  rcases h with h | h <;> exact act_terminal req (by rw [h]; decide)

/-- C2 witness. -/
theorem act_terminal_noop_witness :
    (sWon.status = "won" ∨ sWon.status = "lost") ∧
    act sWon reqEast = (sWon, Except.ok (public_state sWon [])) :=
  ⟨Or.inl rfl, act_terminal_noop sWon reqEast (Or.inl rfl)⟩

/-- C4: after every successfully resolved action on an active session, the
recomputed status is `lost` iff hull ≤ 0; otherwise `won` iff credits ≥ 120
and the position is exactly (0,0); otherwise `active`. -/
theorem act_status_classification (s : GameState) (req : ActionRequest)
    (hs : s.status = "active") (v : PublicView)
    (hok : (act s req).2 = Except.ok v) :
    ((act s req).1.status = "lost" ↔ (act s req).1.hull ≤ 0) ∧
    (0 < (act s req).1.hull →
      ((act s req).1.status = "won" ↔
        (act s req).1.credits ≥ GOAL_CREDITS ∧ (act s req).1.x = 0 ∧ (act s req).1.y = 0)) ∧
    (0 < (act s req).1.hull →
      ¬((act s req).1.credits ≥ GOAL_CREDITS ∧ (act s req).1.x = 0 ∧ (act s req).1.y = 0) →
      (act s req).1.status = "active") := by
  rcases act_cases s req with ⟨hna, _⟩ | ⟨_, _, _, ha⟩ | ⟨_, s2, nb, hr, ha⟩ | ⟨_, s2, e, hr, ha⟩
  · exact absurd hs hna
  · rw [ha] at hok; exact absurd hok (by simp)
  · rw [ha]
    have h1 : (finalize s2 nb).1 = update_status { s2 with turn := s2.turn + 1 } := rfl
    rw [h1]
    simp only [update_status_hull, update_status_credits, update_status_x, update_status_y]
    exact update_status_char { s2 with turn := s2.turn + 1 }
  · rw [ha] at hok; exact absurd hok (by simp)

/-- C4 witness. -/
theorem act_status_classification_witness :
    sBase.status = "active" ∧
    (act sBase reqScan).2 = Except.ok scanView ∧
    (((act sBase reqScan).1.status = "lost" ↔ (act sBase reqScan).1.hull ≤ 0) ∧
     (0 < (act sBase reqScan).1.hull →
       ((act sBase reqScan).1.status = "won" ↔
         (act sBase reqScan).1.credits ≥ GOAL_CREDITS ∧
         (act sBase reqScan).1.x = 0 ∧ (act sBase reqScan).1.y = 0)) ∧
     (0 < (act sBase reqScan).1.hull →
       ¬((act sBase reqScan).1.credits ≥ GOAL_CREDITS ∧
         (act sBase reqScan).1.x = 0 ∧ (act sBase reqScan).1.y = 0) →
       (act sBase reqScan).1.status = "active")) :=
  ⟨rfl, rfl, act_status_classification sBase reqScan rfl scanView rfl⟩

/-- C5: while a pending event is present on an active session, any action
other than fight, bribe or evade is rejected with a blocking validation error
and no state change; and each of fight, bribe and evade, whenever it resolves
successfully, leaves `pending_event` empty regardless of the random
sub-outcome. -/
theorem pending_event_exclusive (s : GameState) (req : ActionRequest)
    (hs : s.status = "active") :
    (s.pending_event.isSome = true →
      ¬(pyLower req.action = "fight" ∨ pyLower req.action = "bribe" ∨
        pyLower req.action = "evade") →
      act s req = (s, Except.error (Err.http 400 "Resolve the ambush first"))) ∧
    ((pyLower req.action = "fight" ∨ pyLower req.action = "bribe" ∨
      pyLower req.action = "evade") →
      ∀ v, (act s req).2 = Except.ok v → (act s req).1.pending_event = none) := by
  constructor
  · intro hp hn
    simp only [act, if_neg (not_not_intro hs)]
    rw [if_pos ⟨hp, hn⟩]
  · intro ha v hv
    rcases act_cases s req with ⟨hna, _⟩ | ⟨_, _, hn, _⟩ | ⟨_, s2, nb, hr, ha2⟩ | ⟨_, s2, e, hr, ha2⟩
    · exact absurd hs hna
    · exact absurd ha hn
    · rw [ha2]
      have h1 : (finalize s2 nb).1 = update_status { s2 with turn := s2.turn + 1 } := rfl
      rw [h1, update_status_pending]
      show s2.pending_event = none
      rcases ha with hf | hb | he
      · rw [hf, resolveAction_fight] at hr
        exact (fightStep_ok hr).2.2.1
      · rw [hb, resolveAction_bribe] at hr
        exact (bribeStep_ok hr).2.2.1
      · rw [he, resolveAction_evade] at hr
        exact (evadeStep_ok hr).2.2.2.1
    · rw [ha2] at hv; exact absurd hv (by simp)

/-- C5 witness. -/
theorem pending_event_exclusive_witness :
    sAmbush.status = "active" ∧
    sAmbush.pending_event.isSome = true ∧
    act sAmbush reqScan = (sAmbush, Except.error (Err.http 400 "Resolve the ambush first")) ∧
    (act sAmbush reqBribe).2 = Except.ok bribeView ∧
    (act sAmbush reqBribe).1.pending_event = none :=
  ⟨rfl, rfl,
   (pending_event_exclusive sAmbush reqScan rfl).1 rfl (by decide),
   rfl,
   (pending_event_exclusive sAmbush reqBribe rfl).2 (Or.inr (Or.inl (by decide)))
     bribeView rfl⟩

/-- C10: the handler lower-cases the action name and the travel direction
before matching, so a request is handled exactly as its lower-cased form. -/
theorem act_case_insensitive (s : GameState) (req : ActionRequest) :
    act s req =
      act s { req with action := pyLower req.action,
                       direction := req.direction.map pyLower } := by
  unfold act
  dsimp only
  rw [pyLower_idem, resolveAction_dir_lower]


/-- C6 (amended): for an active session with no pending event, salvaging an
existing uncollected anomaly at the ship's position awards exactly its value,
flips its collected flag false→true, and dents the hull by 1 iff the roll
from the stream keyed by seed and target id is below risk×0.15; a second
request for the same id changes nothing, and is rejected with a validation
error whenever the session is still active (if the first salvage ended the
game, the second request is the terminal no-op instead of an error). -/
theorem salvage_effects (s : GameState) (req : ActionRequest) (tid : String)
    (a : Anomaly) (k : Nat)
    (hs : s.status = "active") (hp : s.pending_event = none)
    (hact : pyLower req.action = "salvage") (htarget : req.target_id = some tid)
    (htid : ¬ tid = "")
    (hfind : s.anomalies.find? (fun b => b.id == tid) = some a)
    (hcol : a.collected = false) (hx : a.x = s.x) (hy : a.y = s.y)
    (hk : pyIntHex (pyTake tid 8) = some k) :
    isSuccess (act s req).2 = true ∧
    (act s req).1.credits = s.credits + a.value ∧
    (act s req).1.hull =
      (if rollLt ((mkRandom ((s.seed : Int) + (k : Int))).random.1) (a.risk * 3) 20
       then s.hull - 1 else s.hull) ∧
    (act s req).1.anomalies.find? (fun b => b.id == tid) =
      some { a with collected := true } ∧
    (act (act s req).1 req).1 = (act s req).1 ∧
    ((act s req).1.status = "active" →
      act (act s req).1 req =
        ((act s req).1, Except.error (Err.http 400 "Invalid salvage target"))) := by
  have hstep := salvageStep_spec s tid a k htid hfind hcol hx hy hk
  have hA : act s req = finalize _ [] :=
    act_of_resolve_ok hs (gate_of_no_pending hp)
      (by rw [hact, resolveAction_salvage, htarget]; exact hstep)
  have c1 : isSuccess (act s req).2 = true := by rw [hA]; rfl
  have c2 : (act s req).1.credits = s.credits + a.value := by
    rw [hA, finalize_credits]
  have c3 : (act s req).1.hull =
      (if rollLt ((mkRandom ((s.seed : Int) + (k : Int))).random.1) (a.risk * 3) 20
       then s.hull - 1 else s.hull) := by
    rw [hA, finalize_hull]
  have c4 : (act s req).1.anomalies.find? (fun b => b.id == tid) =
      some { a with collected := true } := by
    rw [hA, finalize_anomalies]
    exact find?_markCollected s.anomalies tid a hfind
  have hpend : (act s req).1.pending_event = none := by
    rw [hA, finalize_pending]
    exact hp
  have herr2 : (act s req).1.status = "active" →
      act (act s req).1 req =
        ((act s req).1, Except.error (Err.http 400 "Invalid salvage target")) := by
    intro hA2
    have hstep2 : salvageStep (act s req).1 (some tid) =
        .err (act s req).1 (Err.http 400 "Invalid salvage target") := by
      unfold salvageStep
      dsimp only
      simp only [Option.getD_some]
      rw [if_neg htid, c4]
      dsimp only
      rw [if_pos rfl]
    refine act_of_resolve_err hA2 (gate_of_no_pending hpend) ?_
    rw [hact, resolveAction_salvage, htarget]
    exact hstep2
  refine ⟨c1, c2, c3, c4, ?_, herr2⟩
  by_cases hA2 : (act s req).1.status = "active"
  · rw [herr2 hA2]
  · rw [act_terminal req hA2]

/-- C6 counterexample: when the first salvage wins the game, the second
request for the same id is not rejected with a validation error — it
succeeds as the terminal no-op. -/
theorem second_salvage_after_win_not_rejected :
    sWinSalv.status = "active" ∧
    sWinSalv.anomalies.find? (fun b => b.id == "ab") = some anomWin ∧
    anomWin.collected = false ∧ anomWin.x = sWinSalv.x ∧ anomWin.y = sWinSalv.y ∧
    isSuccess (act sWinSalv reqSalvWin).2 = true ∧
    (act sWinSalv reqSalvWin).1.status = "won" ∧
    isSuccess (act (act sWinSalv reqSalvWin).1 reqSalvWin).2 = true := by
  refine ⟨rfl, ?_, rfl, rfl, rfl, ?_, ?_, ?_⟩ <;> decide

/-- C6 witness. -/
theorem salvage_effects_witness :
    sSalv.status = "active" ∧ sSalv.pending_event = none ∧
    sSalv.anomalies.find? (fun b => b.id == "ab") = some anomAB ∧
    pyIntHex (pyTake "ab" 8) = some 171 ∧
    (isSuccess (act sSalv reqSalvage).2 = true ∧
     (act sSalv reqSalvage).1.credits = sSalv.credits + anomAB.value ∧
     (act sSalv reqSalvage).1.hull =
       (if rollLt ((mkRandom ((sSalv.seed : Int) + (171 : Nat))).random.1)
            (anomAB.risk * 3) 20
        then sSalv.hull - 1 else sSalv.hull) ∧
     (act sSalv reqSalvage).1.anomalies.find? (fun b => b.id == "ab") =
       some { anomAB with collected := true } ∧
     (act (act sSalv reqSalvage).1 reqSalvage).1 = (act sSalv reqSalvage).1 ∧
     ((act sSalv reqSalvage).1.status = "active" →
       act (act sSalv reqSalvage).1 reqSalvage =
         ((act sSalv reqSalvage).1,
          Except.error (Err.http 400 "Invalid salvage target")))) :=
  ⟨rfl, rfl, by decide, by decide,
   salvage_effects sSalv reqSalvage "ab" anomAB 171 rfl rfl (by decide) rfl
     (by decide) (by decide) rfl rfl rfl (by decide)⟩

/-- C9: for a successful travel, both the hazard roll and the ambush roll
come from the stream seeded by `seed + turn*31 + x*13 + y*7` computed at the
origin tile (pre-move position); in particular two travels from the same
state in different valid directions see identical hazard and ambush
outcomes. -/
theorem travel_rolls_origin_keyed (s : GameState) (req1 req2 : ActionRequest)
    (d1x d1y d2x d2y : Int)
    (hs : s.status = "active") (hp : s.pending_event = none)
    (ha1 : pyLower req1.action = "travel") (ha2 : pyLower req2.action = "travel")
    (hfuel : ¬ s.fuel ≤ 0)
    (hd1 : dirDelta (pyLower (req1.direction.getD "")) = some (d1x, d1y))
    (hd2 : dirDelta (pyLower (req2.direction.getD "")) = some (d2x, d2y))
    (hb1 : ¬(s.x + d1x < 0 ∨ s.x + d1x ≥ (MAP_SIZE : Int) ∨
             s.y + d1y < 0 ∨ s.y + d1y ≥ (MAP_SIZE : Int)))
    (hb2 : ¬(s.x + d2x < 0 ∨ s.x + d2x ≥ (MAP_SIZE : Int) ∨
             s.y + d2y < 0 ∨ s.y + d2y ≥ (MAP_SIZE : Int))) :
    ((act s req1).1.hull =
      (if rollLt ((mkRandom (actSalt s)).random.1) 3 20 then s.hull - 1 else s.hull)) ∧
    ((act s req1).1.pending_event = none ↔
      ¬ rollLt (((mkRandom (actSalt s)).random.2).random.1) 1 5) ∧
    (act s req1).1.hull = (act s req2).1.hull ∧
    (act s req1).1.fuel = (act s req2).1.fuel ∧
    (act s req1).1.pending_event = (act s req2).1.pending_event ∧
    (act s req1).1.log = (act s req2).1.log := by
  by_cases hamb : rollLt (((mkRandom (actSalt s)).random.2).random.1) 1 5
  · have h1 := travelStep_spec_ambush s req1.direction (mkRandom (actSalt s))
      d1x d1y hfuel hd1 hb1 hamb
    have h2 := travelStep_spec_ambush s req2.direction (mkRandom (actSalt s))
      d2x d2y hfuel hd2 hb2 hamb
    have hA1 : act s req1 = finalize _ [] :=
      act_of_resolve_ok hs (gate_of_no_pending hp)
        (by rw [ha1, resolveAction_travel]; exact h1)
    have hA2 : act s req2 = finalize _ [] :=
      act_of_resolve_ok hs (gate_of_no_pending hp)
        (by rw [ha2, resolveAction_travel]; exact h2)
    rw [hA1, hA2]
    simp only [finalize_hull, finalize_fuel, finalize_pending, finalize_log]
    refine ⟨by trivial, ?_, by trivial, by trivial, by trivial, by trivial⟩
    simp [hamb]
  · have h1 := travelStep_spec_clean s req1.direction (mkRandom (actSalt s))
      d1x d1y hfuel hd1 hb1 hamb
    have h2 := travelStep_spec_clean s req2.direction (mkRandom (actSalt s))
      d2x d2y hfuel hd2 hb2 hamb
    have hA1 : act s req1 = finalize _ [] :=
      act_of_resolve_ok hs (gate_of_no_pending hp)
        (by rw [ha1, resolveAction_travel]; exact h1)
    have hA2 : act s req2 = finalize _ [] :=
      act_of_resolve_ok hs (gate_of_no_pending hp)
        (by rw [ha2, resolveAction_travel]; exact h2)
    rw [hA1, hA2]
    simp only [finalize_hull, finalize_fuel, finalize_pending, finalize_log]
    refine ⟨by trivial, ?_, by trivial, by trivial, by trivial, by trivial⟩
    show s.pending_event = none ↔ ¬ rollLt (((mkRandom (actSalt s)).random.2).random.1) 1 5
    rw [hp]
    simp [hamb]

/-- C9 witness. -/
theorem travel_rolls_origin_keyed_witness :
    sMid.status = "active" ∧ sMid.pending_event = none ∧
    (((act sMid reqNorth).1.hull =
      (if rollLt ((mkRandom (actSalt sMid)).random.1) 3 20
       then sMid.hull - 1 else sMid.hull)) ∧
    ((act sMid reqNorth).1.pending_event = none ↔
      ¬ rollLt (((mkRandom (actSalt sMid)).random.2).random.1) 1 5) ∧
    (act sMid reqNorth).1.hull = (act sMid reqEast).1.hull ∧
    (act sMid reqNorth).1.fuel = (act sMid reqEast).1.fuel ∧
    (act sMid reqNorth).1.pending_event = (act sMid reqEast).1.pending_event ∧
    (act sMid reqNorth).1.log = (act sMid reqEast).1.log) :=
  ⟨rfl, rfl,
   travel_rolls_origin_keyed sMid reqNorth reqEast 0 (-1) 1 0 rfl rfl
     (by decide) (by decide) (by decide) (by decide) (by decide)
     (by decide) (by decide)⟩



/-- C3 counterexample: the id fields are drawn from the external UUID source
(`uuid.uuid4().hex`), not from the seed, so two runs of world generation with
the same seed produce different anomaly lists when the UUID source differs. -/
theorem generation_ids_differ_across_runs :
    generate_anomalies 1 (fun _ => "a") ≠ generate_anomalies 1 (fun _ => "b") := by
  decide

/-- C3 (amended): for every seed, world generation is a pure function of the
seed in every field except the id: two runs with the same seed yield anomaly
and station lists identical in order and in every field other than id,
whatever ids the UUID source hands out (and the station loop completes after
the same number of iterations for both runs). -/
theorem generation_deterministic_mod_ids (seed : Nat) (u1 u2 : Nat → String)
    (fb : Nat) :
    (generate_anomalies seed u1).map anomalyCore =
      (generate_anomalies seed u2).map anomalyCore ∧
    (generate_stations seed u1 fb).map (List.map stationCore) =
      (generate_stations seed u2 fb).map (List.map stationCore) :=
  ⟨genAnomaliesAux_core u1 u2 10 0 0 (mkRandom (seed : Int)),
   genStationsAux_core u1 u2 fb (mkRandom ((seed : Int) + 4242)) 0 0 [] [] rfl⟩

/-- C7: in every reachable session state the fuel lies in `[0, MAX_FUEL]`;
travel and evade are rejected without state change when fuel is exhausted,
and a fuel_cell trade or a refuel is rejected with a validation error — not
silently accepted — when fuel is already at the cap. -/
theorem fuel_bounds (s : GameState) (req : ActionRequest) (h : Reachable s) :
    (0 ≤ s.fuel ∧ s.fuel ≤ MAX_FUEL) ∧
    (s.status = "active" → s.fuel ≤ 0 →
      (pyLower req.action = "travel" ∨ pyLower req.action = "evade") →
      ∃ e, act s req = (s, Except.error e)) ∧
    (s.status = "active" → s.fuel ≥ MAX_FUEL →
      ((pyLower req.action = "trade" ∧ req.item = some "fuel_cell") ∨
        pyLower req.action = "refuel") →
      ∃ e, act s req = (s, Except.error e)) := by
  refine ⟨reachable_fuel s h, ?_, ?_⟩
  · intro hs hf hae
    by_cases hg : s.pending_event.isSome = true ∧
        ¬(pyLower req.action = "fight" ∨ pyLower req.action = "bribe" ∨
          pyLower req.action = "evade")
    · exact ⟨Err.http 400 "Resolve the ambush first",
        by simp only [act, if_neg (not_not_intro hs)]; rw [if_pos hg]⟩
    · rcases hae with hat | hae
      · refine ⟨Err.http 400 "Out of fuel", act_of_resolve_err hs hg ?_⟩
        rw [hat, resolveAction_travel]
        unfold travelStep
        rw [if_pos hf]
      · cases hpe : s.pending_event with
        | none =>
          refine ⟨Err.http 400 "No active threat", act_of_resolve_err hs hg ?_⟩
          rw [hae, resolveAction_evade]
          unfold evadeStep
          rw [hpe]
        | some ev =>
          refine ⟨Err.http 400 "Out of fuel", act_of_resolve_err hs hg ?_⟩
          rw [hae, resolveAction_evade]
          unfold evadeStep
          rw [hpe]
          dsimp only
          rw [if_pos hf]
  · intro hs hf hti
    by_cases hg : s.pending_event.isSome = true ∧
        ¬(pyLower req.action = "fight" ∨ pyLower req.action = "bribe" ∨
          pyLower req.action = "evade")
    · exact ⟨Err.http 400 "Resolve the ambush first",
        by simp only [act, if_neg (not_not_intro hs)]; rw [if_pos hg]⟩
    · rcases hti with ⟨hat, hitem⟩ | har
      · cases hcs : current_station s with
        | none =>
          refine ⟨Err.http 400 "No trade station here", act_of_resolve_err hs hg ?_⟩
          rw [hat, resolveAction_trade]
          unfold tradeStep
          rw [hcs]
        | some st =>
          by_cases hcred : s.credits < 4
          · refine ⟨Err.http 400 "Not enough credits", act_of_resolve_err hs hg ?_⟩
            rw [hat, resolveAction_trade]
            unfold tradeStep
            rw [hcs]
            dsimp only
            rw [hitem, if_pos rfl, if_pos hcred]
          · refine ⟨Err.http 400 "Fuel already full", act_of_resolve_err hs hg ?_⟩
            rw [hat, resolveAction_trade]
            unfold tradeStep
            rw [hcs]
            dsimp only
            rw [hitem, if_pos rfl, if_neg hcred, if_pos hf]
      · by_cases hbase : s.x ≠ 0 ∨ s.y ≠ 0
        · refine ⟨Err.http 400 "Refuel only at base", act_of_resolve_err hs hg ?_⟩
          rw [har, resolveAction_refuel]
          unfold refuelStep
          rw [if_pos hbase]
        · by_cases hcred : s.credits < 5
          · refine ⟨Err.http 400 "Not enough credits", act_of_resolve_err hs hg ?_⟩
            rw [har, resolveAction_refuel]
            unfold refuelStep
            rw [if_neg hbase, if_pos hcred]
          · refine ⟨Err.http 400 "Fuel already full", act_of_resolve_err hs hg ?_⟩
            rw [har, resolveAction_refuel]
            unfold refuelStep
            rw [if_neg hbase, if_neg hcred, if_pos hf]

/-- C7 witness. -/
theorem fuel_bounds_witness :
    new_game 1 "g0" uuidSrc uuidSrc 1000 = some g0 ∧
    (0 ≤ g0.fuel ∧ g0.fuel ≤ MAX_FUEL) ∧
    g0.status = "active" ∧ g0.fuel ≥ MAX_FUEL ∧
    (∃ e, act g0 reqRefuel = (g0, Except.error e)) := by
  have hnew : new_game 1 "g0" uuidSrc uuidSrc 1000 = some g0 := by decide
  have hreach : Reachable g0 := Reachable.init 1 "g0" uuidSrc uuidSrc 1000 g0 hnew
  exact ⟨hnew, (fuel_bounds g0 reqRefuel hreach).1, by decide, by decide,
    (fuel_bounds g0 reqRefuel hreach).2.2 (by decide) (by decide)
      (Or.inr (by decide))⟩

/-- C8: whenever station generation completes, it returns exactly 3 stations,
each inside the map on both axes, none at the base tile (0,0), and no two at
the same position. -/
theorem stations_spec (seed : Nat) (u : Nat → String) (fb : Nat)
    (l : List Station) (h : generate_stations seed u fb = some l) :
    l.length = 3 ∧ (∀ st ∈ l, stationOk st) ∧
    l.Pairwise (fun a b => ¬(a.x = b.x ∧ a.y = b.y)) :=
  genStationsAux_spec u fb (mkRandom ((seed : Int) + 4242)) 0 [] l h
    (by simp) (by simp) (by simp)

/-- C8 witness. -/
theorem stations_spec_witness :
    generate_stations 1 uuidSrc 1000 = some sampleStations ∧
    (sampleStations.length = 3 ∧ (∀ st ∈ sampleStations, stationOk st) ∧
     sampleStations.Pairwise (fun a b => ¬(a.x = b.x ∧ a.y = b.y))) :=
  ⟨by decide, stations_spec 1 uuidSrc 1000 sampleStations (by decide)⟩


end Starline
